import Mathlib

/-
Verification development for an ML-based network intrusion detection demo.

The repository's runtime core consists of:
  * live_nids.py       - live capture loop (counters, alert log, stats file),
  * nids_backend.py    - richer backend (same pipeline, plus simulation mode,
                         histograms, guarded statistics writer),
  * process_pcap.py    - pcap replay variant of the same loop,
  * api.py / dashboard.py - readers that re-parse the alert log and stats file.

Everything below is a shallow embedding of that Python code: file contents are
modelled as strings / lists of lines, wall-clock timestamps and all random
draws are passed in as explicit parameters, Python exceptions are modelled as
`Option`/`Except`, and CPython's `re.search` calls are modelled character by
character (left-to-right scan; the particular patterns used by the readers
are backtracking-free, so the greedy reading below is exact).
Floating point percentage formatting (`f"{x:.2f}"`) is modelled by exact
rational arithmetic rounded to integer hundredths.
-/

/-! ### Character classes and the regex model shared by api.py and dashboard.py -/

/-- Python's `\s` character class, ASCII range (the log lines are ASCII). -/
def isPySpace (c : Char) : Bool :=
  c = ' ' || c = '\t' || c = '\n' || c = '\r' || c = '\x0b' || c = '\x0c'

/-- Python's `\w` character class, ASCII range: alphanumerics and underscore. -/
def isWordChar (c : Char) : Bool :=
  c.isAlphanum || c = '_'

/-- Match an exact literal at the front of a character list, returning the rest. -/
def stripPrefixC : List Char → List Char → Option (List Char)
  | [], s => some s
  | _ :: _, [] => none
  | k :: ks, c :: cs => if c = k then stripPrefixC ks cs else none

/-- `re.search` semantics: try the pattern at every start position, left to right,
and return the first (leftmost) match. -/
def scan {α : Type} (t : List Char → Option α) : List Char → Option α
  | [] => t []
  | c :: cs =>
    match t (c :: cs) with
    | some r => some r
    | none => scan t cs

/-- One attempt of `\[([^\]]+)\]` anchored at the start of `s`.  The class
`[^\]]+` cannot cross a closing bracket, so the greedy reading is exact. -/
def tryBracket (s : List Char) : Option (List Char) :=
  match s with
  | '[' :: r =>
    let g := r.takeWhile (fun c => c ≠ ']')
    if g.isEmpty then none
    else
      match r.dropWhile (fun c => c ≠ ']') with
      | ']' :: _ => some g
      | _ => none
  | _ => none

/-- The first `\[([^\]]+)\]` group in a line (timestamp extraction). -/
def bracketGroup (s : List Char) : Option (List Char) :=
  scan tryBracket s

/-- One attempt of `KEY\s+([^\s:]+):(\d+)` anchored at the start of `s`
(`KEY` is the literal `Src:` or `Dst:`).  `\s+` cannot donate characters to
`[^\s:]+` and the token cannot contain the following `:`, so no backtracking
can succeed and the greedy reading is exact. -/
def tryHostPort (key : List Char) (s : List Char) : Option (List Char × List Char) :=
  match stripPrefixC key s with
  | none => none
  | some r1 =>
    if (r1.takeWhile isPySpace).isEmpty then none
    else
      let r2 := r1.dropWhile isPySpace
      let tok := r2.takeWhile (fun c => !isPySpace c && c ≠ ':')
      if tok.isEmpty then none
      else
        match r2.dropWhile (fun c => !isPySpace c && c ≠ ':') with
        | ':' :: r3 =>
          let ds := r3.takeWhile (fun c => c.isDigit)
          if ds.isEmpty then none else some (tok, ds)
        | _ => none

/-- One attempt of `KEY\s+(\w+)` anchored at the start of `s`. -/
def tryKeyWord (key : List Char) (s : List Char) : Option (List Char) :=
  match stripPrefixC key s with
  | none => none
  | some r1 =>
    if (r1.takeWhile isPySpace).isEmpty then none
    else
      let w := (r1.dropWhile isPySpace).takeWhile isWordChar
      if w.isEmpty then none else some w

/-- One attempt of `KEY\s+(\d+)` anchored at the start of `s`. -/
def tryKeyDigits (key : List Char) (s : List Char) : Option (List Char) :=
  match stripPrefixC key s with
  | none => none
  | some r1 =>
    if (r1.takeWhile isPySpace).isEmpty then none
    else
      let w := (r1.dropWhile isPySpace).takeWhile (fun c => c.isDigit)
      if w.isEmpty then none else some w

/-- Python `in` on strings: substring containment. -/
def startsWithC : List Char → List Char → Bool
  | [], _ => true
  | _ :: _, [] => false
  | p :: ps, c :: cs => p = c && startsWithC ps cs

/-- Substring containment (`pat in line` in Python). -/
def containsSub (pat : List Char) : List Char → Bool
  | [] => startsWithC pat []
  | c :: cs => startsWithC pat (c :: cs) || containsSub pat cs

/-- Python `str.strip()`: drop leading and trailing whitespace. -/
def stripWs (cs : List Char) : List Char :=
  ((cs.dropWhile isPySpace).reverse.dropWhile isPySpace).reverse

/-- Python `int` on a nonempty digit string. -/
def digitsToNat (ds : List Char) : Nat :=
  ds.foldl (fun n c => 10 * n + (c.toNat - 48)) 0

/-! ### The alert record produced by the readers (api.py `parse_alerts`,
dashboard.py `parse_alerts`; the two functions are textually identical). -/

structure AlertRec where
  timestamp : String
  src_ip : String
  src_port : String
  dst_ip : String
  dst_port : String
  protocol : String
  size : Nat
deriving Repr, DecidableEq

namespace Api

/-- Field extraction for one stripped log line, api.py lines 69-94: each field
is matched independently and independently falls back to the string `N/A`
(and the size to `0`) when its pattern does not occur in the line. -/
def parseAlertLine (line : List Char) : AlertRec :=
  let ts := (bracketGroup line).getD ("N/A".toList)
  let src := scan (tryHostPort ("Src:".toList)) line
  let dst := scan (tryHostPort ("Dst:".toList)) line
  let proto := (scan (tryKeyWord ("Protocol:".toList)) line).getD ("N/A".toList)
  let sz := scan (tryKeyDigits ("Size:".toList)) line
  { timestamp := String.mk ts
    src_ip := String.mk ((src.map Prod.fst).getD ("N/A".toList))
    src_port := String.mk ((src.map Prod.snd).getD ("N/A".toList))
    dst_ip := String.mk ((dst.map Prod.fst).getD ("N/A".toList))
    dst_port := String.mk ((dst.map Prod.snd).getD ("N/A".toList))
    protocol := String.mk proto
    size := match sz with
      | some ds => digitsToNat ds
      | none => 0 }

/-- api.py lines 53-103 (= dashboard.py lines 84-137): read all lines, skip the
first two when line 0 contains the header marker, keep nonempty stripped lines
containing `[ALERT]`, parse each, present most-recent-first, cap at `limit`.
The inner `try`/`except` can never fire (no operation in the loop body raises),
so the embedding is a total function. -/
def parse_alerts (lines : List String) (limit : Nat) : List AlertRec :=
  let start_idx :=
    match lines with
    | [] => 0
    | l0 :: _ => if containsSub ("=== NIDS Alert Log".toList) l0.toList then 2 else 0
  let recs := (lines.drop start_idx).filterMap (fun l =>
    let line := stripWs l.toList
    if !line.isEmpty && containsSub ("[ALERT]".toList) line then
      some (parseAlertLine line)
    else none)
  recs.reverse.take limit

/-- The Python default argument `limit=100`. -/
def parse_alerts_default (lines : List String) : List AlertRec :=
  parse_alerts lines 100

end Api

/-! ### Frames, the opaque classifier, and shared formatting -/

/-- A captured network frame, as far as the repository inspects it: presence of
an IP layer, the numeric IP protocol, addresses, optional TCP/UDP port pairs
(source, destination), and the captured byte length `len(packet)`. -/
structure Packet where
  hasIP : Bool
  proto : Nat
  src : String
  dst : String
  tcpPorts : Option (Nat × Nat)
  udpPorts : Option (Nat × Nat)
  len : Nat
deriving Repr, DecidableEq

/-- `proto_map = {1: 'icmp', 6: 'tcp', 17: 'udp'}` with `.get(n, 'other')`. -/
def protoMap (n : Nat) : String :=
  if n = 1 then "icmp" else if n = 6 then "tcp" else if n = 17 then "udp" else "other"

/-- Source port: from the TCP layer if present, else the UDP layer, else absent. -/
def layerSport (p : Packet) : Option Nat :=
  match p.tcpPorts with
  | some (s, _) => some s
  | none =>
    match p.udpPorts with
    | some (s, _) => some s
    | none => none

/-- Destination port: TCP layer first, else UDP layer, else absent. -/
def layerDport (p : Packet) : Option Nat :=
  match p.tcpPorts with
  | some (_, d) => some d
  | none =>
    match p.udpPorts with
    | some (_, d) => some d
    | none => none

/-- A port rendered into a log line: the number, or the string `N/A`. -/
def fmtPort : Option Nat → String
  | some p => toString p
  | none => "N/A"

/-- The opaque classifier together with its label encoder: `classes` is
`le_proto.classes_`; `predictResult pname sb db` is the combined outcome of
`le_proto.transform` and `clf.predict` on the encoded row (the encoding is a
pure function of `pname`, so the pair is a function of the three raw
features); `Except.error` models a raised exception. -/
structure Model where
  classes : List String
  predictResult : String → Nat → Nat → Except String Nat

/-- Python `str.upper()` (per character; the strings involved are ASCII).
`String.toUpper` itself is defined by well-founded recursion and does not
reduce, so the map is taken over the character list. -/
def upperStr (s : String) : String := String.mk (s.toList.map Char.toUpper)

/-- Python `str.lower()` likewise. -/
def lowerStr (s : String) : String := String.mk (s.toList.map Char.toLower)

/-- The alert line format string shared verbatim by live_nids.py line 27,
nids_backend.py line 139 and process_pcap.py line 39: protocol name
uppercased, newline-terminated. -/
def alert_line (ts src_ip sport dst_ip dport pname : String) (size : Nat) : String :=
  "[" ++ ts ++ "] [ALERT] Malicious Traffic Detected! Src: " ++ src_ip ++ ":" ++
    sport ++ " -> Dst: " ++ dst_ip ++ ":" ++ dport ++ " Protocol: " ++
    upperStr pname ++ " Size: " ++ toString size ++ " bytes\n"

/-- `part/total*100` rendered to two decimals, as integer hundredths of a
percent: the float arithmetic plus `:.2f` of the Python source modelled by
exact rational arithmetic rounded to the nearest hundredth. -/
def pct2 (part total : Nat) : Int :=
  round ((part : ℚ) * 10000 / (total : ℚ))

/-- Render integer hundredths as a two-decimal fixed-point string. -/
def fmt2 (h : Int) : String :=
  (if h < 0 then "-" else "") ++ toString (h.natAbs / 100) ++ "." ++
    (if h.natAbs % 100 < 10 then "0" else "") ++ toString (h.natAbs % 100)

/-- The alert-log banner written on initialization: a banner line carrying the
start timestamp followed by a blank line. -/
def nids_header (ts : String) : String :=
  "=== NIDS Alert Log - Started " ++ ts ++ " ===\n\n"

namespace NB

/-- The feature dict built by nids_backend.py lines 173-205. -/
structure Features where
  protocol_name : String
  src_ip : String
  dst_ip : String
  src_port : Option Nat
  dst_port : Option Nat
  src_bytes : Nat
  dst_bytes : Nat
deriving Repr, DecidableEq

/-- nids_backend.py lines 173-205: `None` when the frame has no IP layer;
`dst_bytes` is fixed at 0 (single-packet observation). -/
def extract_features_from_packet (packet : Packet) : Option Features :=
  if packet.hasIP then
    some { protocol_name := protoMap packet.proto
           src_ip := packet.src
           dst_ip := packet.dst
           src_port := layerSport packet
           dst_port := layerDport packet
           src_bytes := packet.len
           dst_bytes := 0 }
  else none

/-- nids_backend.py lines 207-232: `none` models all three of the
missing-model case, the unknown-protocol case, and a caught prediction
exception (the `try`/`except` around transform + predict). -/
def predict_with_model (m : Option Model) (f : Features) : Option (Nat × String) :=
  match m with
  | none => none
  | some mdl =>
    if f.protocol_name ∈ mdl.classes then
      match mdl.predictResult f.protocol_name f.src_bytes f.dst_bytes with
      | Except.ok p => some (p, f.protocol_name)
      | Except.error _ => none
    else none

/-- nids_backend.py lines 159-171 (textually identical to process_pcap.py
lines 49-60 up to the timestamp source): the stats snapshot content,
rewritten wholesale; the percentage lines are guarded against `total == 0`. -/
def update_stats (ts : String) (total normal attacks : Nat) : String :=
  "=== NIDS Statistics ===\n" ++
    ("Total Packets Analyzed: " ++ toString total ++ "\n") ++
    (if total > 0 then
      ("Normal Traffic: " ++ toString normal ++ " (" ++ fmt2 (pct2 normal total) ++ "%)\n") ++
        ("Attacks Detected: " ++ toString attacks ++ " (" ++ fmt2 (pct2 attacks total) ++ "%)\n")
    else
      ("Normal Traffic: " ++ toString normal ++ " (0.00%)\n") ++
        ("Attacks Detected: " ++ toString attacks ++ " (0.00%)\n")) ++
    ("Last Updated: " ++ ts ++ "\n")

/-- nids_backend.py lines 117-123, restricted to the alert log: the file is
created with the banner header only when absent; an existing file is left
untouched. -/
def initialize_files_log : Option String → String → String
  | none, ts => nids_header ts
  | some c, _ => c

/-- The `packet_info` dict: addresses and already-rendered ports, plus the
optional `protocol` / `size` keys that only external callers supply. -/
structure PacketInfo where
  src_ip : String
  src_port : String
  dst_ip : String
  dst_port : String
  protocol : Option String
  size : Option Nat
deriving Repr, DecidableEq

/-- The draws (`random.choice`, `random.randint`, `random.random() < 0.2`)
consumed by one pass through the simulation branch, passed explicitly. -/
structure SimRand where
  src_ip : String
  src_port : Nat
  dst_ip : String
  dst_port : Nat
  protocol : String
  size : Nat
  coin : Bool
deriving Repr, DecidableEq

/-- The process-wide mutable state of nids_backend.py plus the two files it
writes: `log` is the content of alerts.log; `stats_history` records the
successive contents written to nids_stats.txt (the file holds the last one). -/
structure NState where
  packet_count : Nat
  normal_count : Nat
  attack_count : Nat
  protocol_stats : List (String × Nat)
  ip_stats : List (String × Nat)
  log : String
  stats_history : List String
deriving Repr, DecidableEq

/-- `defaultdict(int)` increment, preserving insertion order. -/
def bump : List (String × Nat) → String → List (String × Nat)
  | [], k => [(k, 1)]
  | (k0, v) :: rest, k => if k0 = k then (k0, v + 1) :: rest else (k0, v) :: bump rest k

/-- nids_backend.py lines 129-146 (the file effect): append one formatted
alert line to the log. -/
def log_alert (ts : String) (pinfo : PacketInfo) (protocol_name : String) (size : Nat)
    (log : String) : String :=
  log ++ alert_line ts pinfo.src_ip pinfo.src_port pinfo.dst_ip pinfo.dst_port
    protocol_name size

/-- nids_backend.py lines 268-271 / 307-310: rewrite the stats snapshot
exactly when the running total is divisible by 10. -/
def flushIfDue (ts : String) (s : NState) : NState :=
  if s.packet_count % 10 = 0 then
    { s with stats_history :=
        s.stats_history ++ [update_stats ts s.packet_count s.normal_count s.attack_count] }
  else s

/-- nids_backend.py lines 275-310: the simulation branch (reached with
`packet_info = None` in pure simulation mode, or with the packet-derived
`packet_info` after a fall-through from the model path). -/
def simulate (ts : String) (r : SimRand) (pinfo0 : Option PacketInfo) (s : NState) : NState :=
  let pinfo : PacketInfo :=
    match pinfo0 with
    | none =>
      { src_ip := r.src_ip, src_port := toString r.src_port,
        dst_ip := r.dst_ip, dst_port := toString r.dst_port,
        protocol := none, size := none }
    | some pi => pi
  let protocol_name :=
    match pinfo0 with
    | none => lowerStr r.protocol
    | some pi => lowerStr (pi.protocol.getD ("tcp"))
  let size :=
    match pinfo0 with
    | none => r.size
    | some pi => pi.size.getD r.size
  let s1 := { s with packet_count := s.packet_count + 1 }
  let s2 :=
    if r.coin then
      { s1 with attack_count := s1.attack_count + 1,
                protocol_stats := bump s1.protocol_stats (upperStr protocol_name),
                ip_stats := bump s1.ip_stats pinfo.src_ip,
                log := log_alert ts pinfo protocol_name size s1.log }
    else { s1 with normal_count := s1.normal_count + 1 }
  flushIfDue ts s2

/-- nids_backend.py lines 234-310, one call with HAS_SCAPY available.  Note
the control flow of the source: when a real packet is present and the model's
prediction comes back unavailable (unknown protocol or caught exception),
execution does NOT return — it falls through to the simulation branch with
the packet-derived `packet_info`. -/
def process_packet (mdl : Option Model) (ts : String) (r : SimRand)
    (packet : Option Packet) (packet_info : Option PacketInfo) (s : NState) : NState :=
  match packet with
  | some pkt =>
    match extract_features_from_packet pkt with
    | none => s
    | some f =>
      let pinfo : PacketInfo :=
        { src_ip := f.src_ip, src_port := fmtPort f.src_port,
          dst_ip := f.dst_ip, dst_port := fmtPort f.dst_port,
          protocol := none, size := none }
      match mdl with
      | some m =>
        match predict_with_model (some m) f with
        | some (pred, pname) =>
          let s1 := { s with packet_count := s.packet_count + 1 }
          let s2 :=
            if pred = 1 then
              { s1 with attack_count := s1.attack_count + 1,
                        protocol_stats := bump s1.protocol_stats (upperStr pname),
                        ip_stats := bump s1.ip_stats pinfo.src_ip,
                        log := log_alert ts pinfo pname f.src_bytes s1.log }
            else { s1 with normal_count := s1.normal_count + 1 }
          flushIfDue ts s2
        | none => simulate ts r (some pinfo) s
      | none => simulate ts r (some pinfo) s
  | none => simulate ts r packet_info s

end NB

namespace Live

/-- live_nids.py lines 38-45: the statistics writer WITHOUT a zero-division
guard.  On `total == 0` the expression `normal/total*100` raises
ZeroDivisionError after the first two lines have already been written; the
error value carries the partial file content left behind by the 'w'-mode
handle. -/
def update_stats (ts : String) (total normal attacks : Nat) : Except String String :=
  let head := "=== NIDS Statistics ===\n" ++ ("Total Packets Analyzed: " ++ toString total ++ "\n")
  if total = 0 then Except.error head
  else
    Except.ok (head ++
      ("Normal Traffic: " ++ toString normal ++ " (" ++ fmt2 (pct2 normal total) ++ "%)\n") ++
      ("Attacks Detected: " ++ toString attacks ++ " (" ++ fmt2 (pct2 attacks total) ++ "%)\n") ++
      ("Last Updated: " ++ ts ++ "\n"))

/-- live_nids.py lines 62-80 (textually identical in process_pcap.py lines
62-80): `None` when there is no IP layer or when the protocol name is outside
the encoder's classes. -/
def extract_features (classes : List String) (packet : Packet) : Option (String × Nat × Nat) :=
  if packet.hasIP then
    let protocol_name := protoMap packet.proto
    if protocol_name ∈ classes then some (protocol_name, packet.len, 0) else none
  else none

/-- live_nids.py lines 19-36 (the file effect): ports read from the TCP/UDP
layers, `N/A` when neither is present. -/
def log_alert (ts : String) (packet : Packet) (protocol_name : String) (size : Nat)
    (log : String) : String :=
  log ++ alert_line ts packet.src (fmtPort (layerSport packet)) packet.dst
    (fmtPort (layerDport packet)) protocol_name size

/-- The counters of live_nids.py (and the local counters of
process_pcap.process_pcap_file) plus the two files they write. -/
structure LState where
  packet_count : Nat
  normal_count : Nat
  attack_count : Nat
  log : String
  stats_history : List String
deriving Repr, DecidableEq

/-- live_nids.py lines 82-118, one call.  `le_proto.transform` can only raise
ValueError for a label outside `classes` — which `extract_features` has
already excluded — but the catch is modelled faithfully.  `clf.predict` is
NOT wrapped in any try/except, so a prediction exception escapes
`process_packet` (`Except.error`), killing the sniff loop. -/
def process_packet (m : Model) (ts : String) (packet : Packet) (s : LState) :
    Except Unit LState :=
  match extract_features m.classes packet with
  | none => Except.ok s
  | some (protocol_name, src_bytes, dst_bytes) =>
    if protocol_name ∈ m.classes then
      match m.predictResult protocol_name src_bytes dst_bytes with
      | Except.error _ => Except.error ()
      | Except.ok pred =>
        let s1 := { s with packet_count := s.packet_count + 1 }
        let s2 :=
          if pred = 1 then
            { s1 with attack_count := s1.attack_count + 1,
                      log := log_alert ts packet protocol_name src_bytes s1.log }
          else { s1 with normal_count := s1.normal_count + 1 }
        if s2.packet_count % 10 = 0 then
          match update_stats ts s2.packet_count s2.normal_count s2.attack_count with
          | Except.ok c => Except.ok { s2 with stats_history := s2.stats_history ++ [c] }
          | Except.error _ => Except.error ()
        else Except.ok s2
    else Except.ok s

/-- live_nids.py lines 120-122 (and process_pcap.py lines 121-123): the log
file is opened with mode 'w' unconditionally at start — whatever content the
file had before (first argument) is discarded and replaced by the header. -/
def init_log (_previous : Option String) (ts : String) : String :=
  nids_header ts

end Live

namespace Pcap

/-- process_pcap.py lines 82-103: same extraction/prediction pipeline, verdict
returned to the caller; a predict exception would escape (it is caught only
by the outer handler that aborts the whole file). -/
def process_packet (m : Model) (packet : Packet) : Except Unit (Option (Nat × String)) :=
  match Live.extract_features m.classes packet with
  | none => Except.ok none
  | some (protocol_name, src_bytes, dst_bytes) =>
    if protocol_name ∈ m.classes then
      match m.predictResult protocol_name src_bytes dst_bytes with
      | Except.error _ => Except.error ()
      | Except.ok pred => Except.ok (some (pred, protocol_name))
    else Except.ok none

/-- process_pcap.py lines 134-157, one loop iteration (without the pacing
delay): skipped frames leave the state untouched; counted frames update the
counters, log attacks (size = `len(packet)`), and flush the guarded stats
writer exactly when the running total is divisible by 10. -/
def step (m : Model) (ts : String) (packet : Packet) (s : Live.LState) :
    Except Unit Live.LState :=
  match process_packet m packet with
  | Except.error e => Except.error e
  | Except.ok none => Except.ok s
  | Except.ok (some (pred, protocol_name)) =>
    let s1 := { s with packet_count := s.packet_count + 1 }
    let s2 :=
      if pred = 1 then
        { s1 with attack_count := s1.attack_count + 1,
                  log := Live.log_alert ts packet protocol_name packet.len s1.log }
      else { s1 with normal_count := s1.normal_count + 1 }
    if s2.packet_count % 10 = 0 then
      Except.ok { s2 with stats_history :=
        s2.stats_history ++ [NB.update_stats ts s2.packet_count s2.normal_count s2.attack_count] }
    else Except.ok s2

end Pcap

/-! ### Concrete fixtures shared by the claim theorems -/

/-- A classifier trained on the three protocol names of the dataset, always
answering Normal. -/
def mdl3 : Model :=
  { classes := ["icmp", "tcp", "udp"], predictResult := fun _ _ _ => Except.ok 0 }

/-- A classifier whose predict call raises on every input. -/
def mdlErr : Model :=
  { classes := ["icmp", "tcp", "udp"], predictResult := fun _ _ _ => Except.error ("boom") }

/-- An IP frame with protocol 47 (GRE): maps to 'other', which is outside the
encoder's classes. -/
def pkt47 : Packet :=
  { hasIP := true, proto := 47, src := "10.0.0.1", dst := "10.0.0.2",
    tcpPorts := none, udpPorts := none, len := 100 }

/-- An ordinary supported TCP frame. -/
def pktTcp : Packet :=
  { hasIP := true, proto := 6, src := "10.0.0.1", dst := "10.0.0.2",
    tcpPorts := some (1234, 80), udpPorts := none, len := 500 }

/-- One fixed tuple of simulation draws, with the attack coin up. -/
def rand1 : NB.SimRand :=
  { src_ip := "192.168.1.10", src_port := 80, dst_ip := "10.0.0.5", dst_port := 443,
    protocol := "TCP", size := 500, coin := true }

/-- The backend's initial state: zero counters, empty histograms and files. -/
def nb0 : NB.NState :=
  { packet_count := 0, normal_count := 0, attack_count := 0,
    protocol_stats := [], ip_stats := [], log := "", stats_history := [] }

/-- The live loop's initial state. -/
def lv0 : Live.LState :=
  { packet_count := 0, normal_count := 0, attack_count := 0, log := "", stats_history := [] }

/-- A fixed packet_info record used to instantiate theorems. -/
def pinfo1 : NB.PacketInfo :=
  { src_ip := "10.0.0.1", src_port := "1234", dst_ip := "10.0.0.2", dst_port := "80",
    protocol := none, size := none }

/-- The state after one counted frame from the zero state (live/pcap loops). -/
def lv1 : Live.LState :=
  { packet_count := 1, normal_count := 1, attack_count := 0, log := "", stats_history := [] }

/-- The state after one counted frame from the zero state (backend loop). -/
def nb1 : NB.NState :=
  { packet_count := 1, normal_count := 1, attack_count := 0,
    protocol_stats := [], ip_stats := [], log := "", stats_history := [] }

/-- A classifier answering Attack on every input. -/
def mdlAtk : Model :=
  { classes := ["icmp", "tcp", "udp"], predictResult := fun _ _ _ => Except.ok 1 }

/-- Header detection from the reader contract: line 0 contains the marker. -/
def headerAt0 : List String → Bool
  | [] => false
  | l0 :: _ => containsSub ("=== NIDS Alert Log".toList) l0.toList

/-- The reader contract as amended, stated from the spec's words where they
survive contact with the code: skip exactly the first two lines when line 0
contains the header marker; keep only the lines that are nonempty after
stripping and contain `[ALERT]`; every kept line yields a record (a line that
does not match the expected alert shape is NOT dropped — each of its fields
independently falls back to `N/A`, the size to 0 — and nothing ever raises);
present records most-recent-first; cap at the limit. -/
def parse_alerts_desc (lines : List String) (limit : Nat) : List AlertRec :=
  let body := if headerAt0 lines then lines.drop 2 else lines
  let kept := (body.map (fun l => stripWs l.toList)).filter
    (fun line => !line.isEmpty && containsSub ("[ALERT]".toList) line)
  ((kept.map Api.parseAlertLine).reverse).take limit

/-- Timestamp characters, as produced by `strftime` here: digits, dash, colon,
space (the `UTC` suffix is not needed for the N/A-port claim, whose witness
lines use the live_nids local-time format). -/
def tsChar (c : Char) : Bool :=
  c.isDigit || c = '-' || c = ':' || c = ' '

/-- Address characters: dotted decimal. -/
def ipChar (c : Char) : Bool :=
  c.isDigit || c = '.'

/-- The stripped (no trailing newline) character-level form of an alert line
whose two port fields hold the literal `N/A`, split at the capital letters at
which the reader's key patterns can start matching. -/
def lineC (tsl ip1l ip2l Pl dsl : List Char) : List Char :=
  ('[' :: (tsl ++ (']' :: ((" [ALERT] Malicious Traffic ".toList) ++ ('D' :: (("etected! ".toList) ++ ('S' :: (("rc:".toList) ++ (' ' :: (ip1l ++ ((":N/A -> ".toList) ++ ('D' :: (("st:".toList) ++ (' ' :: (ip2l ++ ((":N/A ".toList) ++ ('P' :: (("rotocol:".toList) ++ (' ' :: (Pl ++ (' ' :: ('S' :: (("ize:".toList) ++ (' ' :: (dsl ++ (" bytes".toList))))))))))))))))))))))))))

/-- The middle of the N/A-port alert line: everything strictly between the
leading bracket and the trailing literal. -/
def lineMid (tsl ip1l ip2l Pl dsl : List Char) : List Char :=
  (tsl ++ (']' :: ((" [ALERT] Malicious Traffic ".toList) ++ ('D' :: (("etected! ".toList) ++ ('S' :: (("rc:".toList) ++ (' ' :: (ip1l ++ ((":N/A -> ".toList) ++ ('D' :: (("st:".toList) ++ (' ' :: (ip2l ++ ((":N/A ".toList) ++ ('P' :: (("rotocol:".toList) ++ (' ' :: (Pl ++ (' ' :: ('S' :: (("ize:".toList) ++ (' ' :: dsl)))))))))))))))))))))))

/-- An ICMP frame (no TCP or UDP layer): the logger renders both ports `N/A`. -/
def pktIcmp : Packet :=
  { hasIP := true, proto := 1, src := "10.0.0.1", dst := "10.0.0.2",
    tcpPorts := none, udpPorts := none, len := 64 }

/-- C1: the claim — every call to the statistics writer with total == 0 writes
the snapshot successfully with both percentage fields rendered `0.00%` — holds
for the guarded writer of nids_backend.py / process_pcap.py but fails on
live_nids.py, whose `update_stats` has no zero-division guard: at total == 0
the expression `normal/total*100` raises ZeroDivisionError (reachable from
the KeyboardInterrupt handler before any packet was counted), leaving a
partial two-line stats file behind. -/
theorem C1_zero_total_stats :
    Live.update_stats ("2024-01-01 00:00:00") 0 0 0 =
      Except.error ("=== NIDS Statistics ===\nTotal Packets Analyzed: 0\n") ∧
    NB.update_stats ("2024-01-01 00:00:00") 0 0 0 =
      "=== NIDS Statistics ===\nTotal Packets Analyzed: 0\nNormal Traffic: 0 (0.00%)\nAttacks Detected: 0 (0.00%)\nLast Updated: 2024-01-01 00:00:00\n" := by
  exact ⟨rfl, rfl⟩

/-- C2: a frame whose protocol name is outside the classifier's encoding table
is NOT skipped entirely by nids_backend.process_packet.  With a model loaded,
`predict_with_model` returns None for the proto-47 frame and control falls
through to the simulation branch: the total counter increments, the attack
counter increments on the simulated coin, the protocol histogram gains a
fabricated `TCP` entry, and the alert log grows — contradicting the claimed
no-op. -/
theorem C2_unsupported_protocol_counts :
    (NB.process_packet (some mdl3) ("2024-01-01 00:00:00") rand1 (some pkt47) none nb0).packet_count = 1 ∧
    (NB.process_packet (some mdl3) ("2024-01-01 00:00:00") rand1 (some pkt47) none nb0).attack_count = 1 ∧
    (NB.process_packet (some mdl3) ("2024-01-01 00:00:00") rand1 (some pkt47) none nb0).protocol_stats = [("TCP", 1)] ∧
    (NB.process_packet (some mdl3) ("2024-01-01 00:00:00") rand1 (some pkt47) none nb0).log ≠ "" := by
  refine ⟨rfl, rfl, ?_, ?_⟩ <;> decide

/-- C4: the claimed handling of a classifier exception — caught, frame dropped
with no counter change and no alert, loop continues — fails in both cited
places.  In nids_backend.py the exception IS caught by `predict_with_model`,
but the frame is then NOT dropped: control falls through to the simulation
branch, which increments the counters and (coin up) logs a fabricated alert.
In live_nids.py `clf.predict` is not wrapped in any try/except at all, so the
exception escapes `process_packet` and kills the sniff loop. -/
theorem C4_classifier_error_behavior :
    (NB.process_packet (some mdlErr) ("2024-01-01 00:00:00") rand1 (some pktTcp) none nb0).packet_count = 1 ∧
    (NB.process_packet (some mdlErr) ("2024-01-01 00:00:00") rand1 (some pktTcp) none nb0).log ≠ "" ∧
    Live.process_packet mdlErr ("2024-01-01 00:00:00") pktTcp lv0 = Except.error () := by
  refine ⟨rfl, ?_, rfl⟩
  decide

/-! ### Helper lemmas about the substring model -/

theorem startsWithC_self : ∀ (pat rest : List Char), startsWithC pat (pat ++ rest) = true := by
  intro pat
  induction pat with
  | nil => intro rest; rfl
  | cons p ps ih =>
    intro rest
    simp [startsWithC, ih rest]

theorem containsSub_mid : ∀ (a pat b : List Char), containsSub pat (a ++ (pat ++ b)) = true := by
  intro a pat b
  induction a with
  | nil =>
    cases pat with
    | nil => cases b <;> simp [containsSub, startsWithC]
    | cons p ps =>
      show (startsWithC (p :: ps) ((p :: ps) ++ b) || containsSub (p :: ps) (ps ++ b)) = true
      rw [startsWithC_self]
      rfl
  | cons x a' ih =>
    simp [containsSub, ih]

/-- C3 counterexample: live_nids.py opens the alert log with mode 'w'
unconditionally at ingestion start, so an existing log IS truncated — the
previous content is not even a prefix of the file content after startup. -/
theorem C3_truncation_counterexample :
    (("old alert\n".toList).isPrefixOf
      ((Live.init_log (some ("old alert\n")) ("2024-01-01 00:00:00")).toList)) = false := by
  decide

/-- C3 amended: in nids_backend.py, `initialize_files` creates the alert log
with exactly the two-line header (one banner line containing the marker
`=== NIDS Alert Log` and the start timestamp, then one blank line — two
newlines in total) precisely when the file is absent, leaves an existing
file's content untouched, and `log_alert` only ever appends; the live_nids /
process_pcap variants instead discard any existing content and write a fresh
header each run. -/
theorem C3_log_init_amended (ts prev pname : String) (pinfo : NB.PacketInfo) (size : Nat)
    (hts : (ts.toList.all (fun c => c != '\n')) = true) :
    ((NB.initialize_files_log none ts).toList.count '\n' = 2 ∧
      containsSub ("=== NIDS Alert Log".toList) ((NB.initialize_files_log none ts).toList) = true ∧
      containsSub (ts.toList) ((NB.initialize_files_log none ts).toList) = true) ∧
    NB.initialize_files_log (some prev) ts = prev ∧
    ((prev.toList).isPrefixOf ((NB.log_alert ts pinfo pname size prev).toList)) = true ∧
    Live.init_log (some prev) ts = nids_header ts := by
  have hnl : '\n' ∉ ts.toList := by
    intro hm
    have h2 := List.all_eq_true.mp hts _ hm
    simp at h2
  have hdata : (NB.initialize_files_log none ts).toList
      = ("=== NIDS Alert Log".toList ++ (" - Started ".toList ++ (ts.toList ++ " ===\n\n".toList))) := by
    show (nids_header ts).toList = _
    simp [nids_header, String.toList, String.data_append]
  refine ⟨⟨?_, ?_, ?_⟩, rfl, ?_, rfl⟩
  · rw [hdata]
    simp only [List.count_append]
    rw [List.count_eq_zero.mpr hnl]
    decide
  · rw [hdata]
    exact containsSub_mid [] _ _
  · rw [hdata]
    have : ("=== NIDS Alert Log".toList ++ (" - Started ".toList ++ (ts.toList ++ " ===\n\n".toList)))
        = ("=== NIDS Alert Log".toList ++ " - Started ".toList) ++ (ts.toList ++ " ===\n\n".toList) := by
      simp
    rw [this]
    exact containsSub_mid _ _ _
  · show ((prev.toList).isPrefixOf ((prev ++ alert_line ts pinfo.src_ip pinfo.src_port pinfo.dst_ip pinfo.dst_port pname size).toList)) = true
    rw [List.isPrefixOf_iff_prefix]
    rw [show ((prev ++ alert_line ts pinfo.src_ip pinfo.src_port pinfo.dst_ip pinfo.dst_port pname size).toList) = prev.toList ++ (alert_line ts pinfo.src_ip pinfo.src_port pinfo.dst_ip pinfo.dst_port pname size).toList from String.data_append _ _]
    exact List.prefix_append _ _

/-- C3 witness: the amended statement instantiated at a concrete timestamp and
a concrete pre-existing log. -/
theorem C3_log_init_amended_witness :
    (("2024-01-01 00:00:00 UTC".toList.all (fun c => c != '\n')) = true) ∧
    ((NB.initialize_files_log none ("2024-01-01 00:00:00 UTC")).toList.count '\n' = 2 ∧
      containsSub ("=== NIDS Alert Log".toList) ((NB.initialize_files_log none ("2024-01-01 00:00:00 UTC")).toList) = true ∧
      containsSub ("2024-01-01 00:00:00 UTC".toList) ((NB.initialize_files_log none ("2024-01-01 00:00:00 UTC")).toList) = true) ∧
    NB.initialize_files_log (some ("old alert\n")) ("2024-01-01 00:00:00 UTC") = "old alert\n" ∧
    (("old alert\n".toList).isPrefixOf ((NB.log_alert ("2024-01-01 00:00:00 UTC") pinfo1 "tcp" 100 ("old alert\n")).toList)) = true ∧
    Live.init_log (some ("old alert\n")) ("2024-01-01 00:00:00 UTC") = nids_header ("2024-01-01 00:00:00 UTC") :=
  ⟨by decide, C3_log_init_amended ("2024-01-01 00:00:00 UTC") ("old alert\n") "tcp" pinfo1 100 (by decide)⟩

/-- C6: for any snapshot written with positive total whose counters satisfy
the loop invariant normal + attacks = total (established by C9), the two
percentages rendered to two decimal places by the statistics writer sum to
100.00 within the two-decimal rounding tolerance: the rendered integer
hundredths differ from 10000 (= 100.00) by at most 1 (i.e. at most 0.01). -/
theorem C6_percentage_sum (n a t : Nat) (ht : 0 < t) (h : n + a = t) :
    |pct2 n t + pct2 a t - 10000| ≤ 1 := by
  have htQ : ((t : ℚ)) ≠ 0 := Nat.cast_ne_zero.mpr ht.ne'
  have hsum : (n : ℚ) * 10000 / t + (a : ℚ) * 10000 / t = 10000 := by
    rw [div_add_div_same, ← add_mul]
    have hna : ((n : ℚ) + (a : ℚ)) = (t : ℚ) := by exact_mod_cast h
    rw [hna]
    field_simp
  have hx := abs_sub_round ((n : ℚ) * 10000 / t)
  have hy := abs_sub_round ((a : ℚ) * 10000 / t)
  have key : |((pct2 n t + pct2 a t : ℤ) : ℚ) - 10000| ≤ 1 := by
    have hrw : ((pct2 n t + pct2 a t : ℤ) : ℚ) - 10000
        = (((round ((n : ℚ) * 10000 / t) : ℤ) : ℚ) - (n : ℚ) * 10000 / t)
          + (((round ((a : ℚ) * 10000 / t) : ℤ) : ℚ) - (a : ℚ) * 10000 / t) := by
      unfold pct2
      push_cast
      linarith [hsum]
    rw [hrw]
    calc |(((round ((n : ℚ) * 10000 / t) : ℤ) : ℚ) - (n : ℚ) * 10000 / t)
          + (((round ((a : ℚ) * 10000 / t) : ℤ) : ℚ) - (a : ℚ) * 10000 / t)|
        ≤ |(((round ((n : ℚ) * 10000 / t) : ℤ) : ℚ) - (n : ℚ) * 10000 / t)|
          + |(((round ((a : ℚ) * 10000 / t) : ℤ) : ℚ) - (a : ℚ) * 10000 / t)| := abs_add _ _
      _ ≤ 1 / 2 + 1 / 2 := by
          rw [abs_sub_comm ((round ((n : ℚ) * 10000 / t) : ℚ)) _,
            abs_sub_comm ((round ((a : ℚ) * 10000 / t) : ℚ)) _]
          exact add_le_add hx hy
      _ = 1 := by norm_num
  have key2 : ((|pct2 n t + pct2 a t - 10000| : ℤ) : ℚ) ≤ ((1 : ℤ) : ℚ) := by
    push_cast
    convert key using 2
    push_cast
    ring
  exact_mod_cast key2

/-- C6 witness: with 1 normal and 2 attack packets out of 3, the rendered
hundredths are 3333 and 6667, summing to exactly 10000. -/
theorem C6_percentage_sum_witness :
    0 < 3 ∧ 1 + 2 = 3 ∧ |pct2 1 3 + pct2 2 3 - 10000| ≤ 1 :=
  ⟨by decide, by decide, C6_percentage_sum 1 2 3 (by decide) (by decide)⟩

/-! ### Step-shape lemmas for the loop bodies -/

theorem nbFlush_counters (ts : String) (s2 : NB.NState) :
    (NB.flushIfDue ts s2).packet_count = s2.packet_count ∧
    (NB.flushIfDue ts s2).normal_count = s2.normal_count ∧
    (NB.flushIfDue ts s2).attack_count = s2.attack_count ∧
    (NB.flushIfDue ts s2).log = s2.log := by
  unfold NB.flushIfDue
  by_cases h : s2.packet_count % 10 = 0 <;> simp [h]

theorem nbCounted (ts : String) (s s2 : NB.NState)
    (hpc : s2.packet_count = s.packet_count + 1)
    (hsh : s2.stats_history = s.stats_history) :
    (NB.flushIfDue ts s2).packet_count = s.packet_count + 1 ∧
    (((NB.flushIfDue ts s2).packet_count % 10 = 0 ∧
        (NB.flushIfDue ts s2).stats_history = s.stats_history ++
          [NB.update_stats ts (NB.flushIfDue ts s2).packet_count
            (NB.flushIfDue ts s2).normal_count (NB.flushIfDue ts s2).attack_count]) ∨
      ((NB.flushIfDue ts s2).packet_count % 10 ≠ 0 ∧
        (NB.flushIfDue ts s2).stats_history = s.stats_history)) := by
  unfold NB.flushIfDue
  by_cases h : s2.packet_count % 10 = 0
  · rw [if_pos h]
    refine ⟨hpc, Or.inl ⟨h, ?_⟩⟩
    show s2.stats_history ++ [NB.update_stats ts s2.packet_count s2.normal_count s2.attack_count]
        = s.stats_history ++ [NB.update_stats ts s2.packet_count s2.normal_count s2.attack_count]
    rw [hsh]
  · rw [if_neg h]
    exact ⟨hpc, Or.inr ⟨h, hsh⟩⟩

theorem nbSimulate_shape (ts : String) (r : NB.SimRand) (p : Option NB.PacketInfo)
    (s : NB.NState) :
    ∃ s2 : NB.NState, NB.simulate ts r p s = NB.flushIfDue ts s2 ∧
      s2.packet_count = s.packet_count + 1 ∧ s2.stats_history = s.stats_history ∧
      ((s2.normal_count = s.normal_count + 1 ∧ s2.attack_count = s.attack_count ∧ s2.log = s.log) ∨
        (s2.normal_count = s.normal_count ∧ s2.attack_count = s.attack_count + 1 ∧
          ∃ line, s2.log = s.log ++ line)) := by
  refine ⟨_, rfl, ?_, ?_, ?_⟩
  · by_cases h : r.coin <;> simp [h]
  · by_cases h : r.coin <;> simp [h]
  · by_cases h : r.coin
    · refine Or.inr ⟨by simp [h], by simp [h], ?_⟩
      simp only [h, if_true, NB.log_alert]
      exact ⟨_, rfl⟩
    · exact Or.inl ⟨by simp [h], by simp [h], by simp [h]⟩

theorem nb_step_cadence (mdl : Option Model) (ts : String) (r : NB.SimRand)
    (packet : Option Packet) (pinfo : Option NB.PacketInfo) (s s' : NB.NState)
    (h : NB.process_packet mdl ts r packet pinfo s = s') :
    (s'.packet_count = s.packet_count ∧ s'.stats_history = s.stats_history) ∨
    (s'.packet_count = s.packet_count + 1 ∧
      ((s'.packet_count % 10 = 0 ∧
          s'.stats_history = s.stats_history ++
            [NB.update_stats ts s'.packet_count s'.normal_count s'.attack_count]) ∨
        (s'.packet_count % 10 ≠ 0 ∧ s'.stats_history = s.stats_history))) := by
  subst h
  cases packet with
  | none =>
    obtain ⟨s2, hEq, hpc, hsh, _⟩ := nbSimulate_shape ts r pinfo s
    rw [show NB.process_packet mdl ts r none pinfo s = NB.simulate ts r pinfo s from rfl, hEq]
    exact Or.inr (nbCounted ts s s2 hpc hsh)
  | some pkt =>
    rcases hE : NB.extract_features_from_packet pkt with _ | f
    · left
      simp [NB.process_packet, hE]
    · cases mdl with
      | none =>
        simp only [NB.process_packet, hE]
        obtain ⟨s2, hEq, hpc, hsh, _⟩ := nbSimulate_shape ts r
          (some { src_ip := f.src_ip, src_port := fmtPort f.src_port,
                  dst_ip := f.dst_ip, dst_port := fmtPort f.dst_port,
                  protocol := none, size := none }) s
        rw [hEq]
        exact Or.inr (nbCounted ts s s2 hpc hsh)
      | some m =>
        rcases hP : NB.predict_with_model (some m) f with _ | pp
        · simp only [NB.process_packet, hE, hP]
          obtain ⟨s2, hEq, hpc, hsh, _⟩ := nbSimulate_shape ts r
            (some { src_ip := f.src_ip, src_port := fmtPort f.src_port,
                    dst_ip := f.dst_ip, dst_port := fmtPort f.dst_port,
                    protocol := none, size := none }) s
          rw [hEq]
          exact Or.inr (nbCounted ts s s2 hpc hsh)
        · obtain ⟨pred, pname⟩ := pp
          simp only [NB.process_packet, hE, hP]
          refine Or.inr (nbCounted ts s _ ?_ ?_)
          · by_cases hpred : pred = 1 <;> simp [hpred]
          · by_cases hpred : pred = 1 <;> simp [hpred]

theorem live_step_cadence (m : Model) (ts : String) (packet : Packet) (s s' : Live.LState)
    (h : Live.process_packet m ts packet s = Except.ok s') :
    (s'.packet_count = s.packet_count ∧ s'.stats_history = s.stats_history) ∨
    (s'.packet_count = s.packet_count + 1 ∧
      ((s'.packet_count % 10 = 0 ∧
          ∃ c, Live.update_stats ts s'.packet_count s'.normal_count s'.attack_count = Except.ok c ∧
            s'.stats_history = s.stats_history ++ [c]) ∨
        (s'.packet_count % 10 ≠ 0 ∧ s'.stats_history = s.stats_history))) := by
  rcases hE : Live.extract_features m.classes packet with _ | ⟨pname, sb, db⟩
  · simp only [Live.process_packet, hE, Except.ok.injEq] at h
    subst h
    exact Or.inl ⟨rfl, rfl⟩
  · by_cases hm : pname ∈ m.classes
    · cases hp : m.predictResult pname sb db with
      | error e =>
        simp [Live.process_packet, hE, hp, hm] at h
      | ok pred =>
        by_cases hpred : pred = 1
        · by_cases h10 : (s.packet_count + 1) % 10 = 0
          · simp only [Live.process_packet, hE, hp, hm, hpred, if_true, if_pos,
              Live.update_stats, Nat.succ_ne_zero, if_false, h10, ite_true, ite_false,
              if_neg, Except.ok.injEq, reduceIte] at h
            subst h
            refine Or.inr ⟨rfl, Or.inl ⟨h10, ⟨_, ?_, rfl⟩⟩⟩
            simp [Live.update_stats]
          · simp only [Live.process_packet, hE, hp, hm, hpred, if_true, ite_true, reduceIte,
              h10, ite_false, if_neg, Except.ok.injEq] at h
            subst h
            exact Or.inr ⟨rfl, Or.inr ⟨h10, rfl⟩⟩
        · by_cases h10 : (s.packet_count + 1) % 10 = 0
          · simp only [Live.process_packet, hE, hp, hm, hpred, if_true, if_pos,
              Live.update_stats, Nat.succ_ne_zero, if_false, h10, ite_true, ite_false,
              if_neg, Except.ok.injEq, reduceIte] at h
            subst h
            refine Or.inr ⟨rfl, Or.inl ⟨h10, ⟨_, ?_, rfl⟩⟩⟩
            simp [Live.update_stats]
          · simp only [Live.process_packet, hE, hp, hm, hpred, if_true, ite_true, reduceIte,
              h10, ite_false, if_neg, Except.ok.injEq] at h
            subst h
            exact Or.inr ⟨rfl, Or.inr ⟨h10, rfl⟩⟩
    · simp only [Live.process_packet, hE, hm, if_neg, ite_false, reduceIte,
        Except.ok.injEq] at h
      subst h
      exact Or.inl ⟨rfl, rfl⟩

theorem pcap_step_cadence (m : Model) (ts : String) (packet : Packet) (s s' : Live.LState)
    (h : Pcap.step m ts packet s = Except.ok s') :
    (s'.packet_count = s.packet_count ∧ s'.stats_history = s.stats_history) ∨
    (s'.packet_count = s.packet_count + 1 ∧
      ((s'.packet_count % 10 = 0 ∧
          s'.stats_history = s.stats_history ++
            [NB.update_stats ts s'.packet_count s'.normal_count s'.attack_count]) ∨
        (s'.packet_count % 10 ≠ 0 ∧ s'.stats_history = s.stats_history))) := by
  rcases hq : Pcap.process_packet m packet with e | oq
  · simp [Pcap.step, hq] at h
  · cases oq with
    | none =>
      simp only [Pcap.step, hq, Except.ok.injEq] at h
      subst h
      exact Or.inl ⟨rfl, rfl⟩
    | some pp =>
      obtain ⟨pred, pname⟩ := pp
      by_cases hpred : pred = 1
      · by_cases h10 : (s.packet_count + 1) % 10 = 0
        · simp only [Pcap.step, hq, hpred, if_true, ite_true, reduceIte, h10,
            Except.ok.injEq] at h
          subst h
          exact Or.inr ⟨rfl, Or.inl ⟨h10, rfl⟩⟩
        · simp only [Pcap.step, hq, hpred, if_true, ite_true, reduceIte, h10, ite_false,
            if_neg, Except.ok.injEq] at h
          subst h
          exact Or.inr ⟨rfl, Or.inr ⟨h10, rfl⟩⟩
      · by_cases h10 : (s.packet_count + 1) % 10 = 0
        · simp only [Pcap.step, hq, hpred, ite_false, reduceIte, h10, ite_true,
            Except.ok.injEq] at h
          subst h
          exact Or.inr ⟨rfl, Or.inl ⟨h10, rfl⟩⟩
        · simp only [Pcap.step, hq, hpred, ite_false, reduceIte, h10, if_neg,
            Except.ok.injEq] at h
          subst h
          exact Or.inr ⟨rfl, Or.inr ⟨h10, rfl⟩⟩

theorem nbFlush_history_or (ts : String) (s2 : NB.NState) :
    (NB.flushIfDue ts s2).stats_history = s2.stats_history ∨
    ∃ c, (NB.flushIfDue ts s2).stats_history = s2.stats_history ++ [c] := by
  unfold NB.flushIfDue
  by_cases h : s2.packet_count % 10 = 0
  · rw [if_pos h]
    exact Or.inr ⟨_, rfl⟩
  · rw [if_neg h]
    exact Or.inl rfl

theorem nbInv_of_shape (ts : String) (s s2 : NB.NState)
    (hpc : s2.packet_count = s.packet_count + 1) (hsh : s2.stats_history = s.stats_history)
    (hca : (s2.normal_count = s.normal_count + 1 ∧ s2.attack_count = s.attack_count) ∨
      (s2.normal_count = s.normal_count ∧ s2.attack_count = s.attack_count + 1))
    (hinv : s.normal_count + s.attack_count = s.packet_count) :
    (NB.flushIfDue ts s2).normal_count + (NB.flushIfDue ts s2).attack_count
        = (NB.flushIfDue ts s2).packet_count ∧
      s.packet_count ≤ (NB.flushIfDue ts s2).packet_count ∧
      s.normal_count ≤ (NB.flushIfDue ts s2).normal_count ∧
      s.attack_count ≤ (NB.flushIfDue ts s2).attack_count ∧
      s.stats_history <+: (NB.flushIfDue ts s2).stats_history := by
  obtain ⟨f1, f2, f3, _⟩ := nbFlush_counters ts s2
  rw [f1, f2, f3]
  refine ⟨?_, ?_, ?_, ?_, ?_⟩
  · rcases hca with ⟨n1, n2⟩ | ⟨n1, n2⟩ <;> omega
  · omega
  · rcases hca with ⟨n1, n2⟩ | ⟨n1, n2⟩ <;> omega
  · rcases hca with ⟨n1, n2⟩ | ⟨n1, n2⟩ <;> omega
  · rcases nbFlush_history_or ts s2 with hh | ⟨c, hh⟩
    · rw [hh, hsh]
    · rw [hh, hsh]
      exact List.prefix_append _ _

theorem nb_step_invariant (mdl : Option Model) (ts : String) (r : NB.SimRand)
    (packet : Option Packet) (pinfo : Option NB.PacketInfo) (s s' : NB.NState)
    (h : NB.process_packet mdl ts r packet pinfo s = s')
    (hinv : s.normal_count + s.attack_count = s.packet_count) :
    s'.normal_count + s'.attack_count = s'.packet_count ∧
      s.packet_count ≤ s'.packet_count ∧ s.normal_count ≤ s'.normal_count ∧
      s.attack_count ≤ s'.attack_count ∧ s.stats_history <+: s'.stats_history := by
  subst h
  cases packet with
  | none =>
    obtain ⟨s2, hEq, hpc, hsh, hca⟩ := nbSimulate_shape ts r pinfo s
    rw [show NB.process_packet mdl ts r none pinfo s = NB.simulate ts r pinfo s from rfl, hEq]
    refine nbInv_of_shape ts s s2 hpc hsh ?_ hinv
    rcases hca with ⟨n1, n2, _⟩ | ⟨n1, n2, _⟩
    · exact Or.inl ⟨n1, n2⟩
    · exact Or.inr ⟨n1, n2⟩
  | some pkt =>
    rcases hE : NB.extract_features_from_packet pkt with _ | f
    · simp only [NB.process_packet, hE]
      exact ⟨hinv, le_refl _, le_refl _, le_refl _, List.prefix_rfl⟩
    · cases mdl with
      | none =>
        simp only [NB.process_packet, hE]
        obtain ⟨s2, hEq, hpc, hsh, hca⟩ := nbSimulate_shape ts r
          (some { src_ip := f.src_ip, src_port := fmtPort f.src_port,
                  dst_ip := f.dst_ip, dst_port := fmtPort f.dst_port,
                  protocol := none, size := none }) s
        rw [hEq]
        refine nbInv_of_shape ts s s2 hpc hsh ?_ hinv
        rcases hca with ⟨n1, n2, _⟩ | ⟨n1, n2, _⟩
        · exact Or.inl ⟨n1, n2⟩
        · exact Or.inr ⟨n1, n2⟩
      | some m =>
        rcases hP : NB.predict_with_model (some m) f with _ | pp
        · simp only [NB.process_packet, hE, hP]
          obtain ⟨s2, hEq, hpc, hsh, hca⟩ := nbSimulate_shape ts r
            (some { src_ip := f.src_ip, src_port := fmtPort f.src_port,
                    dst_ip := f.dst_ip, dst_port := fmtPort f.dst_port,
                    protocol := none, size := none }) s
          rw [hEq]
          refine nbInv_of_shape ts s s2 hpc hsh ?_ hinv
          rcases hca with ⟨n1, n2, _⟩ | ⟨n1, n2, _⟩
          · exact Or.inl ⟨n1, n2⟩
          · exact Or.inr ⟨n1, n2⟩
        · obtain ⟨pred, pname⟩ := pp
          simp only [NB.process_packet, hE, hP]
          refine nbInv_of_shape ts s _ ?_ ?_ ?_ hinv
          · by_cases hpred : pred = 1 <;> simp [hpred]
          · by_cases hpred : pred = 1 <;> simp [hpred]
          · by_cases hpred : pred = 1
            · exact Or.inr ⟨by simp [hpred], by simp [hpred]⟩
            · exact Or.inl ⟨by simp [hpred], by simp [hpred]⟩

theorem live_step_invariant (m : Model) (ts : String) (packet : Packet) (s s' : Live.LState)
    (h : Live.process_packet m ts packet s = Except.ok s')
    (hinv : s.normal_count + s.attack_count = s.packet_count) :
    s'.normal_count + s'.attack_count = s'.packet_count ∧
      s.packet_count ≤ s'.packet_count ∧ s.normal_count ≤ s'.normal_count ∧
      s.attack_count ≤ s'.attack_count ∧ s.stats_history <+: s'.stats_history := by
  rcases hE : Live.extract_features m.classes packet with _ | ⟨pname, sb, db⟩
  · simp only [Live.process_packet, hE, Except.ok.injEq] at h
    subst h
    exact ⟨hinv, le_refl _, le_refl _, le_refl _, List.prefix_rfl⟩
  · by_cases hm : pname ∈ m.classes
    · cases hp : m.predictResult pname sb db with
      | error e =>
        simp [Live.process_packet, hE, hp, hm] at h
      | ok pred =>
        by_cases hpred : pred = 1 <;> by_cases h10 : (s.packet_count + 1) % 10 = 0 <;>
          simp only [Live.process_packet, hE, hp, hm, hpred, if_true, ite_true, reduceIte,
            Live.update_stats, Nat.succ_ne_zero, h10, ite_false, if_neg, if_pos,
            Except.ok.injEq] at h <;>
        subst h <;>
        refine ⟨?_, ?_, ?_, ?_, ?_⟩ <;>
          first
            | exact List.prefix_append _ _
            | exact List.prefix_rfl
            | (simp <;> omega)
    · simp only [Live.process_packet, hE, hm, if_neg, ite_false, reduceIte,
        Except.ok.injEq] at h
      subst h
      exact ⟨hinv, le_refl _, le_refl _, le_refl _, List.prefix_rfl⟩

theorem pcap_step_invariant (m : Model) (ts : String) (packet : Packet) (s s' : Live.LState)
    (h : Pcap.step m ts packet s = Except.ok s')
    (hinv : s.normal_count + s.attack_count = s.packet_count) :
    s'.normal_count + s'.attack_count = s'.packet_count ∧
      s.packet_count ≤ s'.packet_count ∧ s.normal_count ≤ s'.normal_count ∧
      s.attack_count ≤ s'.attack_count ∧ s.stats_history <+: s'.stats_history := by
  rcases hq : Pcap.process_packet m packet with e | oq
  · simp [Pcap.step, hq] at h
  · cases oq with
    | none =>
      simp only [Pcap.step, hq, Except.ok.injEq] at h
      subst h
      exact ⟨hinv, le_refl _, le_refl _, le_refl _, List.prefix_rfl⟩
    | some pp =>
      obtain ⟨pred, pname⟩ := pp
      by_cases hpred : pred = 1 <;> by_cases h10 : (s.packet_count + 1) % 10 = 0 <;>
        simp only [Pcap.step, hq, hpred, if_true, ite_true, reduceIte, h10, ite_false,
          if_neg, if_pos, Except.ok.injEq] at h <;>
      subst h <;>
      refine ⟨?_, ?_, ?_, ?_, ?_⟩ <;>
        first
          | exact List.prefix_append _ _
          | exact List.prefix_rfl
          | (simp <;> omega)

/-- C7: in all three loop bodies (nids_backend.process_packet,
live_nids.process_packet, the process_pcap loop iteration) the stats snapshot
is rewritten on a fixed count-based cadence: a processed frame either leaves
the total counter and the snapshot file untouched (skipped frame), or
increments the total by exactly one, after which the snapshot is rewritten if
and only if the new running total is divisible by 10. -/
theorem C7_flush_cadence :
    (∀ (mdl : Option Model) (ts : String) (r : NB.SimRand) (packet : Option Packet)
        (pinfo : Option NB.PacketInfo) (s s' : NB.NState),
      NB.process_packet mdl ts r packet pinfo s = s' →
      (s'.packet_count = s.packet_count ∧ s'.stats_history = s.stats_history) ∨
      (s'.packet_count = s.packet_count + 1 ∧
        ((s'.packet_count % 10 = 0 ∧
            s'.stats_history = s.stats_history ++
              [NB.update_stats ts s'.packet_count s'.normal_count s'.attack_count]) ∨
          (s'.packet_count % 10 ≠ 0 ∧ s'.stats_history = s.stats_history)))) ∧
    (∀ (m : Model) (ts : String) (packet : Packet) (s s' : Live.LState),
      Live.process_packet m ts packet s = Except.ok s' →
      (s'.packet_count = s.packet_count ∧ s'.stats_history = s.stats_history) ∨
      (s'.packet_count = s.packet_count + 1 ∧
        ((s'.packet_count % 10 = 0 ∧
            ∃ c, Live.update_stats ts s'.packet_count s'.normal_count s'.attack_count
                = Except.ok c ∧
              s'.stats_history = s.stats_history ++ [c]) ∨
          (s'.packet_count % 10 ≠ 0 ∧ s'.stats_history = s.stats_history)))) ∧
    (∀ (m : Model) (ts : String) (packet : Packet) (s s' : Live.LState),
      Pcap.step m ts packet s = Except.ok s' →
      (s'.packet_count = s.packet_count ∧ s'.stats_history = s.stats_history) ∨
      (s'.packet_count = s.packet_count + 1 ∧
        ((s'.packet_count % 10 = 0 ∧
            s'.stats_history = s.stats_history ++
              [NB.update_stats ts s'.packet_count s'.normal_count s'.attack_count]) ∨
          (s'.packet_count % 10 ≠ 0 ∧ s'.stats_history = s.stats_history)))) :=
  ⟨nb_step_cadence, live_step_cadence, pcap_step_cadence⟩

/-- C7 witness: one counted frame starting from the zero state reaches total 1
(not divisible by 10), and accordingly no snapshot is written, in all three
loop bodies. -/
theorem C7_flush_cadence_witness :
    (NB.process_packet (some mdl3) ("TS") rand1 (some pktTcp) none nb0 = nb1 ∧
      ((nb1.packet_count = nb0.packet_count ∧ nb1.stats_history = nb0.stats_history) ∨
        (nb1.packet_count = nb0.packet_count + 1 ∧
          ((nb1.packet_count % 10 = 0 ∧
              nb1.stats_history = nb0.stats_history ++
                [NB.update_stats ("TS") nb1.packet_count nb1.normal_count nb1.attack_count]) ∨
            (nb1.packet_count % 10 ≠ 0 ∧ nb1.stats_history = nb0.stats_history))))) ∧
    (Live.process_packet mdl3 ("TS") pktTcp lv0 = Except.ok lv1 ∧
      ((lv1.packet_count = lv0.packet_count ∧ lv1.stats_history = lv0.stats_history) ∨
        (lv1.packet_count = lv0.packet_count + 1 ∧
          ((lv1.packet_count % 10 = 0 ∧
              ∃ c, Live.update_stats ("TS") lv1.packet_count lv1.normal_count lv1.attack_count
                  = Except.ok c ∧
                lv1.stats_history = lv0.stats_history ++ [c]) ∨
            (lv1.packet_count % 10 ≠ 0 ∧ lv1.stats_history = lv0.stats_history))))) ∧
    (Pcap.step mdl3 ("TS") pktTcp lv0 = Except.ok lv1 ∧
      ((lv1.packet_count = lv0.packet_count ∧ lv1.stats_history = lv0.stats_history) ∨
        (lv1.packet_count = lv0.packet_count + 1 ∧
          ((lv1.packet_count % 10 = 0 ∧
              lv1.stats_history = lv0.stats_history ++
                [NB.update_stats ("TS") lv1.packet_count lv1.normal_count lv1.attack_count]) ∨
            (lv1.packet_count % 10 ≠ 0 ∧ lv1.stats_history = lv0.stats_history))))) :=
  ⟨⟨rfl, C7_flush_cadence.1 (some mdl3) ("TS") rand1 (some pktTcp) none nb0 nb1 rfl⟩,
    ⟨rfl, C7_flush_cadence.2.1 mdl3 ("TS") pktTcp lv0 lv1 rfl⟩,
    ⟨rfl, C7_flush_cadence.2.2 mdl3 ("TS") pktTcp lv0 lv1 rfl⟩⟩

/-- C9: each step of each of the three loop bodies preserves the invariant
`normal_count + attack_count = packet_count`, never decreases any of the
three counters, and only ever appends to the sequence of written snapshots —
hence total_packets across successive snapshots never decreases within one
process lifetime. -/
theorem C9_counter_invariant :
    (∀ (mdl : Option Model) (ts : String) (r : NB.SimRand) (packet : Option Packet)
        (pinfo : Option NB.PacketInfo) (s s' : NB.NState),
      NB.process_packet mdl ts r packet pinfo s = s' →
      s.normal_count + s.attack_count = s.packet_count →
      (s'.normal_count + s'.attack_count = s'.packet_count ∧
        s.packet_count ≤ s'.packet_count ∧ s.normal_count ≤ s'.normal_count ∧
        s.attack_count ≤ s'.attack_count ∧ s.stats_history <+: s'.stats_history)) ∧
    (∀ (m : Model) (ts : String) (packet : Packet) (s s' : Live.LState),
      Live.process_packet m ts packet s = Except.ok s' →
      s.normal_count + s.attack_count = s.packet_count →
      (s'.normal_count + s'.attack_count = s'.packet_count ∧
        s.packet_count ≤ s'.packet_count ∧ s.normal_count ≤ s'.normal_count ∧
        s.attack_count ≤ s'.attack_count ∧ s.stats_history <+: s'.stats_history)) ∧
    (∀ (m : Model) (ts : String) (packet : Packet) (s s' : Live.LState),
      Pcap.step m ts packet s = Except.ok s' →
      s.normal_count + s.attack_count = s.packet_count →
      (s'.normal_count + s'.attack_count = s'.packet_count ∧
        s.packet_count ≤ s'.packet_count ∧ s.normal_count ≤ s'.normal_count ∧
        s.attack_count ≤ s'.attack_count ∧ s.stats_history <+: s'.stats_history)) :=
  ⟨nb_step_invariant, live_step_invariant, pcap_step_invariant⟩

/-- C9 witness: the invariant instantiated at one concrete counted frame in
each loop body. -/
theorem C9_counter_invariant_witness :
    (NB.process_packet (some mdl3) ("TS") rand1 (some pktTcp) none nb0 = nb1 ∧
      nb0.normal_count + nb0.attack_count = nb0.packet_count ∧
      (nb1.normal_count + nb1.attack_count = nb1.packet_count ∧
        nb0.packet_count ≤ nb1.packet_count ∧ nb0.normal_count ≤ nb1.normal_count ∧
        nb0.attack_count ≤ nb1.attack_count ∧ nb0.stats_history <+: nb1.stats_history)) ∧
    (Live.process_packet mdl3 ("TS") pktTcp lv0 = Except.ok lv1 ∧
      lv0.normal_count + lv0.attack_count = lv0.packet_count ∧
      (lv1.normal_count + lv1.attack_count = lv1.packet_count ∧
        lv0.packet_count ≤ lv1.packet_count ∧ lv0.normal_count ≤ lv1.normal_count ∧
        lv0.attack_count ≤ lv1.attack_count ∧ lv0.stats_history <+: lv1.stats_history)) ∧
    (Pcap.step mdl3 ("TS") pktTcp lv0 = Except.ok lv1 ∧
      lv0.normal_count + lv0.attack_count = lv0.packet_count ∧
      (lv1.normal_count + lv1.attack_count = lv1.packet_count ∧
        lv0.packet_count ≤ lv1.packet_count ∧ lv0.normal_count ≤ lv1.normal_count ∧
        lv0.attack_count ≤ lv1.attack_count ∧ lv0.stats_history <+: lv1.stats_history)) :=
  ⟨⟨rfl, rfl, C9_counter_invariant.1 (some mdl3) ("TS") rand1 (some pktTcp) none nb0 nb1 rfl rfl⟩,
    ⟨rfl, rfl, C9_counter_invariant.2.1 mdl3 ("TS") pktTcp lv0 lv1 rfl rfl⟩,
    ⟨rfl, rfl, C9_counter_invariant.2.2 mdl3 ("TS") pktTcp lv0 lv1 rfl rfl⟩⟩

/-- C8: for every frame classified as Attack, the alert logger appends exactly
one newline-terminated line of the documented shape — bracketed timestamp,
the literal alert marker, source and destination as address:port (ports from
the TCP/UDP layers, `N/A` otherwise), the protocol name uppercased, and the
size equal to the captured frame byte length — shown for the nids_backend
model path and the live_nids loop (whose loggers share the format string
verbatim). -/
theorem C8_attack_alert_line (m : Model) (ts : String) (r : NB.SimRand) (pkt : Packet)
    (sN : NB.NState) (sL : Live.LState)
    (hip : pkt.hasIP = true)
    (hmem : protoMap pkt.proto ∈ m.classes)
    (hpred : m.predictResult (protoMap pkt.proto) pkt.len 0 = Except.ok 1) :
    (NB.process_packet (some m) ts r (some pkt) none sN).log =
      sN.log ++
        ("[" ++ ts ++ "] [ALERT] Malicious Traffic Detected! Src: " ++ pkt.src ++ ":" ++
          fmtPort (layerSport pkt) ++ " -> Dst: " ++ pkt.dst ++ ":" ++
          fmtPort (layerDport pkt) ++ " Protocol: " ++ upperStr (protoMap pkt.proto) ++
          " Size: " ++ toString pkt.len ++ " bytes\n") ∧
    (∃ sL', Live.process_packet m ts pkt sL = Except.ok sL' ∧
      sL'.log = sL.log ++
        ("[" ++ ts ++ "] [ALERT] Malicious Traffic Detected! Src: " ++ pkt.src ++ ":" ++
          fmtPort (layerSport pkt) ++ " -> Dst: " ++ pkt.dst ++ ":" ++
          fmtPort (layerDport pkt) ++ " Protocol: " ++ upperStr (protoMap pkt.proto) ++
          " Size: " ++ toString pkt.len ++ " bytes\n")) := by
  have hE : NB.extract_features_from_packet pkt =
      some { protocol_name := protoMap pkt.proto, src_ip := pkt.src, dst_ip := pkt.dst,
             src_port := layerSport pkt, dst_port := layerDport pkt,
             src_bytes := pkt.len, dst_bytes := 0 } := by
    simp [NB.extract_features_from_packet, hip]
  have hP : NB.predict_with_model (some m)
      { protocol_name := protoMap pkt.proto, src_ip := pkt.src, dst_ip := pkt.dst,
        src_port := layerSport pkt, dst_port := layerDport pkt,
        src_bytes := pkt.len, dst_bytes := 0 } = some (1, protoMap pkt.proto) := by
    simp [NB.predict_with_model, hmem, hpred]
  have hEL : Live.extract_features m.classes pkt = some (protoMap pkt.proto, pkt.len, 0) := by
    simp [Live.extract_features, hip, hmem]
  constructor
  · simp only [NB.process_packet, hE, hP]
    rw [(nbFlush_counters ts _).2.2.2]
    simp [NB.log_alert, alert_line]
  · by_cases h10 : (sL.packet_count + 1) % 10 = 0
    · simp only [Live.process_packet, hEL, hmem, hpred, if_pos, if_true, ite_true, reduceIte,
        Live.update_stats, Nat.succ_ne_zero, h10, ite_false, if_neg]
      refine ⟨_, rfl, ?_⟩
      simp [Live.log_alert, alert_line]
    · simp only [Live.process_packet, hEL, hmem, hpred, if_pos, if_true, ite_true, reduceIte,
        h10, ite_false, if_neg]
      refine ⟨_, rfl, ?_⟩
      simp [Live.log_alert, alert_line]

/-- C8 witness: the attack line appended for a concrete TCP frame. -/
theorem C8_attack_alert_line_witness :
    pktTcp.hasIP = true ∧ protoMap pktTcp.proto ∈ mdlAtk.classes ∧
    mdlAtk.predictResult (protoMap pktTcp.proto) pktTcp.len 0 = Except.ok 1 ∧
    ((NB.process_packet (some mdlAtk) ("TS") rand1 (some pktTcp) none nb0).log =
      nb0.log ++
        ("[" ++ "TS" ++ "] [ALERT] Malicious Traffic Detected! Src: " ++ pktTcp.src ++ ":" ++
          fmtPort (layerSport pktTcp) ++ " -> Dst: " ++ pktTcp.dst ++ ":" ++
          fmtPort (layerDport pktTcp) ++ " Protocol: " ++ upperStr (protoMap pktTcp.proto) ++
          " Size: " ++ toString pktTcp.len ++ " bytes\n")) ∧
    (∃ sL', Live.process_packet mdlAtk ("TS") pktTcp lv0 = Except.ok sL' ∧
      sL'.log = lv0.log ++
        ("[" ++ "TS" ++ "] [ALERT] Malicious Traffic Detected! Src: " ++ pktTcp.src ++ ":" ++
          fmtPort (layerSport pktTcp) ++ " -> Dst: " ++ pktTcp.dst ++ ":" ++
          fmtPort (layerDport pktTcp) ++ " Protocol: " ++ upperStr (protoMap pktTcp.proto) ++
          " Size: " ++ toString pktTcp.len ++ " bytes\n")) :=
  ⟨rfl, by decide, rfl,
    (C8_attack_alert_line mdlAtk ("TS") rand1 pktTcp nb0 lv0 rfl (by decide) rfl).1,
    (C8_attack_alert_line mdlAtk ("TS") rand1 pktTcp nb0 lv0 rfl (by decide) rfl).2⟩

theorem parse_body_eq : ∀ body : List String,
    body.filterMap (fun l =>
        let line := stripWs l.toList
        if !line.isEmpty && containsSub ("[ALERT]".toList) line then
          some (Api.parseAlertLine line)
        else none)
      = ((body.map (fun l => stripWs l.toList)).filter
          (fun line => !line.isEmpty && containsSub ("[ALERT]".toList) line)).map
          Api.parseAlertLine := by
  intro body
  induction body with
  | nil => rfl
  | cons x xs ih =>
    by_cases h : !(stripWs x.toList).isEmpty && containsSub ("[ALERT]".toList) (stripWs x.toList)
    · simp only [List.filterMap_cons, List.filter_cons, List.map_cons, h, if_true, ite_true,
        reduceIte, List.map_cons, ih]
    · simp only [List.filterMap_cons, List.filter_cons, List.map_cons, h, if_false, ite_false,
        reduceIte, Bool.false_eq_true, ih]

/-- C5 (amended): the reader implements exactly the amended contract
`parse_alerts_desc`, for every file content and every limit, and the default
limit is 100. -/
theorem C5_reader_contract (lines : List String) (limit : Nat) :
    Api.parse_alerts lines limit = parse_alerts_desc lines limit ∧
    Api.parse_alerts_default lines = parse_alerts_desc lines 100 := by
  have core : ∀ lim, Api.parse_alerts lines lim = parse_alerts_desc lines lim := by
    intro lim
    unfold Api.parse_alerts parse_alerts_desc headerAt0
    cases lines with
    | nil => rfl
    | cons l0 rest =>
      by_cases h : containsSub ("=== NIDS Alert Log".toList) l0.toList
      · simp only [h, if_true, ite_true, reduceIte]
        rw [parse_body_eq]
      · simp only [h, if_false, ite_false, reduceIte, Bool.false_eq_true]
        rw [parse_body_eq]
        rfl
  exact ⟨core limit, core 100⟩

/-- C5 counterexample: a line containing `[ALERT]` but not matching the alert
shape is NOT silently skipped, contradicting the claim — it yields a record
with fallback fields (the first bracketed group even captures the word
ALERT itself). -/
theorem C5_malformed_not_skipped :
    Api.parse_alerts ["bad [ALERT] line with no fields"] 100 =
      [{ timestamp := "ALERT", src_ip := "N/A", src_port := "N/A", dst_ip := "N/A",
         dst_port := "N/A", protocol := "N/A", size := 0 }] := by
  decide

/-! ### Lemmas for the regex scan model (C10 infrastructure) -/

theorem scan_cons_none {α : Type} (t : List Char → Option α) (c : Char) (cs : List Char)
    (h : t (c :: cs) = none) : scan t (c :: cs) = scan t cs := by
  simp only [scan, h]

theorem scan_cons_some {α : Type} (t : List Char → Option α) (c : Char) (cs : List Char)
    (r : α) (h : t (c :: cs) = some r) : scan t (c :: cs) = some r := by
  simp only [scan, h]

theorem scan_skip {α : Type} (t : List Char → Option α) :
    ∀ (seg rest : List Char), (∀ c tl, c ∈ seg → t (c :: tl) = none) →
      scan t (seg ++ rest) = scan t rest := by
  intro seg
  induction seg with
  | nil => intro rest _; rfl
  | cons c cs ih =>
    intro rest h
    have h0 : t (c :: (cs ++ rest)) = none := h c _ (List.mem_cons_self c cs)
    show scan t (c :: (cs ++ rest)) = scan t rest
    rw [scan_cons_none t c (cs ++ rest) h0]
    exact ih rest (fun c' tl hc' => h c' tl (List.mem_cons_of_mem _ hc'))

theorem stripPrefixC_self : ∀ (k r : List Char), stripPrefixC k (k ++ r) = some r := by
  intro k
  induction k with
  | nil => intro r; rfl
  | cons c cs ih => intro r; simp [stripPrefixC, ih r]

theorem tryHostPort_head_ne (k0 : Char) (ks : List Char) (c : Char) (cs : List Char)
    (h : c ≠ k0) : tryHostPort (k0 :: ks) (c :: cs) = none := by
  simp [tryHostPort, stripPrefixC, h]

theorem tryKeyWord_head_ne (k0 : Char) (ks : List Char) (c : Char) (cs : List Char)
    (h : c ≠ k0) : tryKeyWord (k0 :: ks) (c :: cs) = none := by
  simp [tryKeyWord, stripPrefixC, h]

theorem tryKeyDigits_head_ne (k0 : Char) (ks : List Char) (c : Char) (cs : List Char)
    (h : c ≠ k0) : tryKeyDigits (k0 :: ks) (c :: cs) = none := by
  simp [tryKeyDigits, stripPrefixC, h]

theorem takeWhile_append_stop {p : Char → Bool} :
    ∀ (a : List Char) (c : Char) (b : List Char), (∀ x ∈ a, p x = true) → p c = false →
      ((a ++ c :: b).takeWhile p = a ∧ (a ++ c :: b).dropWhile p = c :: b) := by
  intro a
  induction a with
  | nil =>
    intro c b _ hc
    simp [List.takeWhile_cons, List.dropWhile_cons, hc]
  | cons x xs ih =>
    intro c b ha hc
    have hx : p x = true := ha x (List.mem_cons_self x xs)
    have hrec := ih c b (fun y hy => ha y (List.mem_cons_of_mem _ hy)) hc
    simp [List.takeWhile_cons, List.dropWhile_cons, hx, hrec.1, hrec.2]

theorem containsSub_eq_false (p0 : Char) (ps : List Char) :
    ∀ (l : List Char), (∀ c ∈ l, c ≠ p0) → containsSub (p0 :: ps) l = false := by
  intro l
  induction l with
  | nil => intro _; rfl
  | cons c cs ih =>
    intro h
    have hc : c ≠ p0 := h c (List.mem_cons_self c cs)
    have h1 : startsWithC (p0 :: ps) (c :: cs) = false := by
      simp [startsWithC, Ne.symm hc]
    simp [containsSub, h1, ih (fun c' hc' => h c' (List.mem_cons_of_mem _ hc'))]

theorem pySpace_cases (c : Char) (h : isPySpace c = true) :
    c = ' ' ∨ c = '\t' ∨ c = '\n' ∨ c = '\r' ∨ c = '\x0b' ∨ c = '\x0c' := by
  have h2 : ((((c = ' ' ∨ c = '\t') ∨ c = '\n') ∨ c = '\r') ∨ c = '\x0b') ∨ c = '\x0c' := by
    simpa [isPySpace, decide_eq_true_eq] using h
  tauto

theorem digit_not_space (c : Char) (h : c.isDigit = true) : isPySpace c = false := by
  cases hsp : isPySpace c
  · rfl
  · exfalso
    rcases pySpace_cases c hsp with h1 | h1 | h1 | h1 | h1 | h1 <;> subst h1 <;> revert h <;> decide

theorem tsChar_not_bracket (c : Char) (h : tsChar c = true) : c ≠ ']' := by
  intro he
  subst he
  revert h
  decide

theorem tsChar_ne (c : Char) (h : tsChar c = true) (k : Char) (hk : tsChar k = false) : c ≠ k := by
  intro he
  subst he
  rw [h] at hk
  exact Bool.true_eq_false.mp hk

theorem ipChar_ne (c : Char) (h : ipChar c = true) (k : Char) (hk : ipChar k = false) : c ≠ k := by
  intro he
  subst he
  rw [h] at hk
  exact Bool.true_eq_false.mp hk

theorem digit_ne (c : Char) (h : c.isDigit = true) (k : Char) (hk : k.isDigit = false) : c ≠ k := by
  intro he
  subst he
  rw [h] at hk
  exact Bool.true_eq_false.mp hk

theorem ipChar_not_space (c : Char) (h : ipChar c = true) : isPySpace c = false := by
  have h2 : c.isDigit = true ∨ c = '.' := by simpa [ipChar, decide_eq_true_eq] using h
  rcases h2 with hd | hdot
  · exact digit_not_space c hd
  · subst hdot
    decide

theorem ipChar_token (c : Char) (h : ipChar c = true) :
    (!isPySpace c && decide (c ≠ ':')) = true := by
  have h1 : isPySpace c = false := ipChar_not_space c h
  have h2 : c ≠ ':' := ipChar_ne c h ':' (by decide)
  simp [h1, h2]

theorem stripWs_wrap (c0 cl : Char) (mid : List Char)
    (h0 : isPySpace c0 = false) (hl : isPySpace cl = false) :
    stripWs ((c0 :: (mid ++ [cl])) ++ ['\n']) = c0 :: (mid ++ [cl]) := by
  unfold stripWs
  have hx : List.dropWhile isPySpace ((c0 :: (mid ++ [cl])) ++ ['\n'])
      = (c0 :: (mid ++ [cl])) ++ ['\n'] := by
    rw [show (c0 :: (mid ++ [cl])) ++ ['\n'] = c0 :: (mid ++ [cl] ++ ['\n']) by simp]
    rw [List.dropWhile_cons]
    simp [h0]
  rw [hx]
  rw [show ((c0 :: (mid ++ [cl])) ++ ['\n']).reverse = '\n' :: (cl :: (mid.reverse ++ [c0])) by
    simp]
  rw [List.dropWhile_cons]
  simp only [show isPySpace '\n' = true by decide, if_true, ite_true, reduceIte]
  rw [List.dropWhile_cons]
  simp [hl]

theorem wordChar_not_space (c : Char) (h : isWordChar c = true) : isPySpace c = false := by
  cases hsp : isPySpace c
  · rfl
  · exfalso
    rcases pySpace_cases c hsp with h1 | h1 | h1 | h1 | h1 | h1 <;> subst h1 <;> revert h <;> decide

theorem scan_hp_step (key0 : Char) (key' : List Char) (c : Char) (cs : List Char)
    (h : c ≠ key0) :
    scan (tryHostPort (key0 :: key')) (c :: cs) = scan (tryHostPort (key0 :: key')) cs :=
  scan_cons_none _ c cs (tryHostPort_head_ne key0 key' c cs h)

theorem scan_hp_skip (key0 : Char) (key' : List Char) (seg rest : List Char)
    (h : ∀ c ∈ seg, c ≠ key0) :
    scan (tryHostPort (key0 :: key')) (seg ++ rest) = scan (tryHostPort (key0 :: key')) rest :=
  scan_skip _ seg rest (fun c tl hc => tryHostPort_head_ne key0 key' c tl (h c hc))

theorem scan_kw_step (key0 : Char) (key' : List Char) (c : Char) (cs : List Char)
    (h : c ≠ key0) :
    scan (tryKeyWord (key0 :: key')) (c :: cs) = scan (tryKeyWord (key0 :: key')) cs :=
  scan_cons_none _ c cs (tryKeyWord_head_ne key0 key' c cs h)

theorem scan_kw_skip (key0 : Char) (key' : List Char) (seg rest : List Char)
    (h : ∀ c ∈ seg, c ≠ key0) :
    scan (tryKeyWord (key0 :: key')) (seg ++ rest) = scan (tryKeyWord (key0 :: key')) rest :=
  scan_skip _ seg rest (fun c tl hc => tryKeyWord_head_ne key0 key' c tl (h c hc))

theorem scan_kd_step (key0 : Char) (key' : List Char) (c : Char) (cs : List Char)
    (h : c ≠ key0) :
    scan (tryKeyDigits (key0 :: key')) (c :: cs) = scan (tryKeyDigits (key0 :: key')) cs :=
  scan_cons_none _ c cs (tryKeyDigits_head_ne key0 key' c cs h)

theorem scan_kd_skip (key0 : Char) (key' : List Char) (seg rest : List Char)
    (h : ∀ c ∈ seg, c ≠ key0) :
    scan (tryKeyDigits (key0 :: key')) (seg ++ rest) = scan (tryKeyDigits (key0 :: key')) rest :=
  scan_skip _ seg rest (fun c tl hc => tryKeyDigits_head_ne key0 key' c tl (h c hc))

/-- One attempt of the host:port pattern at its genuine key occurrence fails
on a `N/A` port: the digit class after the colon cannot match `N`. -/
theorem tryHostPort_na (key ipl rest : List Char) (hne : ipl.isEmpty = false)
    (hip : ∀ c ∈ ipl, ipChar c = true) :
    tryHostPort key (key ++ (' ' :: (ipl ++ (':' :: ('N' :: rest))))) = none := by
  obtain ⟨i0, ipl', rfl⟩ : ∃ i0 ipl', ipl = i0 :: ipl' := by
    cases ipl with
    | nil => simp at hne
    | cons a b => exact ⟨a, b, rfl⟩
  have hi0 : isPySpace i0 = false := ipChar_not_space i0 (hip i0 (List.mem_cons_self i0 ipl'))
  have htok := @takeWhile_append_stop (fun c => !isPySpace c && decide (c ≠ ':'))
    (i0 :: ipl') ':' ('N' :: rest) (fun x hx => ipChar_token x (hip x hx)) (by decide)
  have h2 : List.dropWhile isPySpace (' ' :: ((i0 :: ipl') ++ (':' :: ('N' :: rest))))
      = (i0 :: ipl') ++ (':' :: ('N' :: rest)) := by
    simp [List.dropWhile_cons, show isPySpace ' ' = true from by decide, hi0]
  have h1 : List.takeWhile isPySpace (' ' :: ((i0 :: ipl') ++ (':' :: ('N' :: rest))))
      = ' ' :: (List.takeWhile isPySpace ((i0 :: ipl') ++ (':' :: ('N' :: rest)))) := by
    rw [List.takeWhile_cons]
    simp [show isPySpace ' ' = true from by decide]
  simp only [tryHostPort, stripPrefixC_self, h1, h2, htok.1, htok.2]
  simp only [List.isEmpty_cons, Bool.false_eq_true, if_false, ite_false, reduceIte,
    List.takeWhile_cons, show ('N'.isDigit = false) from by decide, List.isEmpty_nil,
    if_true, ite_true]

theorem tryBracket_hit (tsl rest : List Char) (hne : tsl.isEmpty = false)
    (hnb : ∀ c ∈ tsl, decide (c ≠ ']') = true) :
    tryBracket ('[' :: (tsl ++ (']' :: rest))) = some tsl := by
  have htw := @takeWhile_append_stop (fun c => decide (c ≠ ']')) tsl ']' rest hnb (by decide)
  simp only [tryBracket, htw.1, htw.2, hne, Bool.false_eq_true, if_false, ite_false, reduceIte]

theorem tryKeyWord_hit (key w rest : List Char) (hne : w.isEmpty = false)
    (hw : ∀ c ∈ w, isWordChar c = true) (hr : isWordChar ' ' = false) :
    tryKeyWord key (key ++ (' ' :: (w ++ (' ' :: rest)))) = some w := by
  obtain ⟨w0, w', rfl⟩ : ∃ w0 w', w = w0 :: w' := by
    cases w with
    | nil => simp at hne
    | cons a b => exact ⟨a, b, rfl⟩
  have hw0 : isPySpace w0 = false :=
    wordChar_not_space w0 (hw w0 (List.mem_cons_self w0 w'))
  have htok := @takeWhile_append_stop isWordChar (w0 :: w') ' ' rest hw hr
  have h2 : List.dropWhile isPySpace (' ' :: ((w0 :: w') ++ (' ' :: rest)))
      = (w0 :: w') ++ (' ' :: rest) := by
    simp [List.dropWhile_cons, show isPySpace ' ' = true from by decide, hw0]
  have h1 : List.takeWhile isPySpace (' ' :: ((w0 :: w') ++ (' ' :: rest)))
      = ' ' :: (List.takeWhile isPySpace ((w0 :: w') ++ (' ' :: rest))) := by
    rw [List.takeWhile_cons]
    simp [show isPySpace ' ' = true from by decide]
  simp only [tryKeyWord, stripPrefixC_self, h1, h2, htok.1, List.isEmpty_cons,
    Bool.false_eq_true, if_false, ite_false, reduceIte]

theorem tryKeyDigits_hit (key dsl rest : List Char) (hne : dsl.isEmpty = false)
    (hds : ∀ c ∈ dsl, c.isDigit = true) (hr : (' '.isDigit) = false) :
    tryKeyDigits key (key ++ (' ' :: (dsl ++ (' ' :: rest)))) = some dsl := by
  obtain ⟨d0, ds', rfl⟩ : ∃ d0 ds', dsl = d0 :: ds' := by
    cases dsl with
    | nil => simp at hne
    | cons a b => exact ⟨a, b, rfl⟩
  have hd0 : isPySpace d0 = false :=
    digit_not_space d0 (hds d0 (List.mem_cons_self d0 ds'))
  have htok := @takeWhile_append_stop (fun c => c.isDigit) (d0 :: ds') ' ' rest hds hr
  have h2 : List.dropWhile isPySpace (' ' :: ((d0 :: ds') ++ (' ' :: rest)))
      = (d0 :: ds') ++ (' ' :: rest) := by
    simp [List.dropWhile_cons, show isPySpace ' ' = true from by decide, hd0]
  have h1 : List.takeWhile isPySpace (' ' :: ((d0 :: ds') ++ (' ' :: rest)))
      = ' ' :: (List.takeWhile isPySpace ((d0 :: ds') ++ (' ' :: rest))) := by
    rw [List.takeWhile_cons]
    simp [show isPySpace ' ' = true from by decide]
  simp only [tryKeyDigits, stripPrefixC_self, h1, h2, htok.1, List.isEmpty_cons,
    Bool.false_eq_true, if_false, ite_false, reduceIte]

theorem scan_hp_genuine_na (key0 : Char) (key' ipl rest : List Char)
    (hne : ipl.isEmpty = false) (hip : ∀ c ∈ ipl, ipChar c = true) :
    scan (tryHostPort (key0 :: key')) (key0 :: (key' ++ (' ' :: (ipl ++ (':' :: ('N' :: rest))))))
      = scan (tryHostPort (key0 :: key')) (key' ++ (' ' :: (ipl ++ (':' :: ('N' :: rest))))) :=
  scan_cons_none _ key0 _ (tryHostPort_na (key0 :: key') ipl rest hne hip)

theorem scan_kw_genuine_hit (key0 : Char) (key' w rest : List Char)
    (hne : w.isEmpty = false) (hw : ∀ c ∈ w, isWordChar c = true) :
    scan (tryKeyWord (key0 :: key')) (key0 :: (key' ++ (' ' :: (w ++ (' ' :: rest)))))
      = some w :=
  scan_cons_some _ key0 _ _ (tryKeyWord_hit (key0 :: key') w rest hne hw (by decide))

theorem scan_kd_genuine_hit (key0 : Char) (key' dsl rest : List Char)
    (hne : dsl.isEmpty = false) (hds : ∀ c ∈ dsl, c.isDigit = true) :
    scan (tryKeyDigits (key0 :: key')) (key0 :: (key' ++ (' ' :: (dsl ++ (' ' :: rest)))))
      = some dsl :=
  scan_cons_some _ key0 _ _ (tryKeyDigits_hit (key0 :: key') dsl rest hne hds (by decide))

theorem scan_bracket_hit (tsl rest : List Char) (hne : tsl.isEmpty = false)
    (hnb : ∀ c ∈ tsl, decide (c ≠ ']') = true) :
    scan tryBracket ('[' :: (tsl ++ (']' :: rest))) = some tsl :=
  scan_cons_some _ '[' _ _ (tryBracket_hit tsl rest hne hnb)

theorem containsSub_cons_of (pat : List Char) (c : Char) (l : List Char)
    (h : containsSub pat l = true) : containsSub pat (c :: l) = true := by
  simp [containsSub, h]

theorem containsSub_append_of (pat : List Char) :
    ∀ (seg l : List Char), containsSub pat l = true → containsSub pat (seg ++ l) = true := by
  intro seg
  induction seg with
  | nil => intro l h; exact h
  | cons c cs ih =>
    intro l h
    exact containsSub_cons_of pat c (cs ++ l) (ih l h)

theorem stripWs_bytes (c0 : Char) (mid : List Char) (h0 : isPySpace c0 = false) :
    stripWs ((c0 :: (mid ++ (" bytes".toList))) ++ ['\n']) = c0 :: (mid ++ (" bytes".toList)) := by
  have hshape : c0 :: (mid ++ (" bytes".toList)) = c0 :: ((mid ++ (" byte".toList)) ++ ['s']) := by
    rw [show (" bytes".toList : List Char) = (" byte".toList) ++ ['s'] from by decide]
    simp [List.append_assoc]
  rw [hshape]
  exact stripWs_wrap c0 's' (mid ++ (" byte".toList)) h0 (by decide)

theorem srcScan_none (tsl ip1l ip2l Pl dsl : List Char)
    (hts : ∀ c ∈ tsl, tsChar c = true)
    (hip1ne : ip1l.isEmpty = false) (hip1 : ∀ c ∈ ip1l, ipChar c = true)
    (hip2 : ∀ c ∈ ip2l, ipChar c = true)
    (hPeq : Pl = "ICMP".toList ∨ Pl = "TCP".toList ∨ Pl = "UDP".toList ∨ Pl = "OTHER".toList)
    (hds : ∀ c ∈ dsl, c.isDigit = true) :
    scan (tryHostPort ("Src:".toList)) (lineC tsl ip1l ip2l Pl dsl) = none := by
  have htsS : ∀ c ∈ tsl, c ≠ 'S' := fun c hc => tsChar_ne c (hts c hc) 'S' (by decide)
  have hip1S : ∀ c ∈ ip1l, c ≠ 'S' := fun c hc => ipChar_ne c (hip1 c hc) 'S' (by decide)
  have hip2S : ∀ c ∈ ip2l, c ≠ 'S' := fun c hc => ipChar_ne c (hip2 c hc) 'S' (by decide)
  have hPS : ∀ c ∈ Pl, c ≠ 'S' := by
    rcases hPeq with h | h | h | h <;> subst h <;> decide
  have hdsS : ∀ c ∈ dsl, c ≠ 'S' := fun c hc => digit_ne c (hds c hc) 'S' (by decide)
  unfold lineC
  rw [show ((":N/A -> ".toList) : List Char) = ':' :: ('N' :: ("/A -> ".toList)) from by decide]
  rw [show (("Src:".toList) : List Char) = 'S' :: ("rc:".toList) from by decide]
  simp only [List.cons_append, List.append_assoc]
  rw [scan_hp_step 'S' _ '[' _ (by decide)]
  rw [scan_hp_skip 'S' _ tsl _ htsS]
  rw [scan_hp_step 'S' _ ']' _ (by decide)]
  rw [scan_hp_skip 'S' _ (" [ALERT] Malicious Traffic ".toList) _ (by decide)]
  rw [scan_hp_step 'S' _ 'D' _ (by decide)]
  rw [scan_hp_skip 'S' _ ("etected! ".toList) _ (by decide)]
  rw [scan_hp_genuine_na 'S' ("rc:".toList) ip1l _ hip1ne hip1]
  rw [scan_hp_skip 'S' _ ("rc:".toList) _ (by decide)]
  rw [scan_hp_step 'S' _ ' ' _ (by decide)]
  rw [scan_hp_skip 'S' _ ip1l _ hip1S]
  rw [scan_hp_step 'S' _ ':' _ (by decide)]
  rw [scan_hp_step 'S' _ 'N' _ (by decide)]
  rw [scan_hp_skip 'S' _ ("/A -> ".toList) _ (by decide)]
  rw [scan_hp_step 'S' _ 'D' _ (by decide)]
  rw [scan_hp_skip 'S' _ ("st:".toList) _ (by decide)]
  rw [scan_hp_step 'S' _ ' ' _ (by decide)]
  rw [scan_hp_skip 'S' _ ip2l _ hip2S]
  rw [scan_hp_skip 'S' _ ((":N/A ".toList)) _ (by decide)]
  rw [scan_hp_step 'S' _ 'P' _ (by decide)]
  rw [scan_hp_skip 'S' _ ("rotocol:".toList) _ (by decide)]
  rw [scan_hp_step 'S' _ ' ' _ (by decide)]
  rw [scan_hp_skip 'S' _ Pl _ hPS]
  rw [scan_hp_step 'S' _ ' ' _ (by decide)]
  have hsz : tryHostPort ('S' :: ("rc:".toList))
      ('S' :: (("ize:".toList) ++ (' ' :: (dsl ++ (" bytes".toList))))) = none := by
    rw [show (("ize:".toList) : List Char) = 'i' :: ("ze:".toList) from by decide]
    rw [show (("rc:".toList) : List Char) = 'r' :: ("c:".toList) from by decide]
    simp [tryHostPort, stripPrefixC]
  rw [scan_cons_none _ 'S' _ hsz]
  rw [scan_hp_skip 'S' _ ("ize:".toList) _ (by decide)]
  rw [scan_hp_step 'S' _ ' ' _ (by decide)]
  rw [scan_hp_skip 'S' _ dsl _ hdsS]
  rw [show ((" bytes".toList) : List Char) = (" bytes".toList) ++ ([] : List Char) from by simp]
  rw [scan_hp_skip 'S' _ (" bytes".toList) _ (by decide)]
  simp [scan, tryHostPort, stripPrefixC]

theorem dstScan_tail (dsl : List Char) (hdsD : ∀ c ∈ dsl, c ≠ 'D') :
    scan (tryHostPort ('D' :: ("st:".toList)))
      (' ' :: ('S' :: (("ize:".toList) ++ (' ' :: (dsl ++ (" bytes".toList)))))) = none := by
  rw [scan_hp_step 'D' _ ' ' _ (by decide)]
  rw [scan_hp_step 'D' _ 'S' _ (by decide)]
  rw [scan_hp_skip 'D' _ ("ize:".toList) _ (by decide)]
  rw [scan_hp_step 'D' _ ' ' _ (by decide)]
  rw [scan_hp_skip 'D' _ dsl _ hdsD]
  rw [show ((" bytes".toList) : List Char) = (" bytes".toList) ++ ([] : List Char) from by simp]
  rw [scan_hp_skip 'D' _ (" bytes".toList) _ (by decide)]
  simp [scan, tryHostPort, stripPrefixC]

theorem dstScan_none (tsl ip1l ip2l Pl dsl : List Char)
    (hts : ∀ c ∈ tsl, tsChar c = true)
    (hip1 : ∀ c ∈ ip1l, ipChar c = true)
    (hip2ne : ip2l.isEmpty = false) (hip2 : ∀ c ∈ ip2l, ipChar c = true)
    (hPeq : Pl = "ICMP".toList ∨ Pl = "TCP".toList ∨ Pl = "UDP".toList ∨ Pl = "OTHER".toList)
    (hds : ∀ c ∈ dsl, c.isDigit = true) :
    scan (tryHostPort ("Dst:".toList)) (lineC tsl ip1l ip2l Pl dsl) = none := by
  have htsD : ∀ c ∈ tsl, c ≠ 'D' := fun c hc => tsChar_ne c (hts c hc) 'D' (by decide)
  have hip1D : ∀ c ∈ ip1l, c ≠ 'D' := fun c hc => ipChar_ne c (hip1 c hc) 'D' (by decide)
  have hip2D : ∀ c ∈ ip2l, c ≠ 'D' := fun c hc => ipChar_ne c (hip2 c hc) 'D' (by decide)
  have hdsD : ∀ c ∈ dsl, c ≠ 'D' := fun c hc => digit_ne c (hds c hc) 'D' (by decide)
  unfold lineC
  rw [show ((":N/A ".toList) : List Char) = ':' :: ('N' :: ("/A ".toList)) from by decide]
  rw [show (("Dst:".toList) : List Char) = 'D' :: ("st:".toList) from by decide]
  simp only [List.cons_append, List.append_assoc]
  rw [scan_hp_step 'D' _ '[' _ (by decide)]
  rw [scan_hp_skip 'D' _ tsl _ htsD]
  rw [scan_hp_step 'D' _ ']' _ (by decide)]
  rw [scan_hp_skip 'D' _ (" [ALERT] Malicious Traffic ".toList) _ (by decide)]
  have hdet : ∀ rest : List Char, tryHostPort ('D' :: ("st:".toList))
      ('D' :: (("etected! ".toList) ++ rest)) = none := by
    intro rest
    rw [show (("etected! ".toList) : List Char) = 'e' :: ("tected! ".toList) from by decide]
    rw [show (("st:".toList) : List Char) = 's' :: ("t:".toList) from by decide]
    simp [tryHostPort, stripPrefixC]
  rw [scan_cons_none _ 'D' _ (hdet _)]
  rw [scan_hp_skip 'D' _ ("etected! ".toList) _ (by decide)]
  rw [scan_hp_step 'D' _ 'S' _ (by decide)]
  rw [scan_hp_skip 'D' _ ("rc:".toList) _ (by decide)]
  rw [scan_hp_step 'D' _ ' ' _ (by decide)]
  rw [scan_hp_skip 'D' _ ip1l _ hip1D]
  rw [scan_hp_skip 'D' _ ((":N/A -> ".toList)) _ (by decide)]
  rw [scan_hp_genuine_na 'D' ("st:".toList) ip2l _ hip2ne hip2]
  rw [scan_hp_skip 'D' _ ("st:".toList) _ (by decide)]
  rw [scan_hp_step 'D' _ ' ' _ (by decide)]
  rw [scan_hp_skip 'D' _ ip2l _ hip2D]
  rw [scan_hp_step 'D' _ ':' _ (by decide)]
  rw [scan_hp_step 'D' _ 'N' _ (by decide)]
  rw [scan_hp_skip 'D' _ ("/A ".toList) _ (by decide)]
  rw [scan_hp_step 'D' _ 'P' _ (by decide)]
  rw [scan_hp_skip 'D' _ ("rotocol:".toList) _ (by decide)]
  rw [scan_hp_step 'D' _ ' ' _ (by decide)]
  rcases hPeq with h | h | h | h
  · subst h
    rw [scan_hp_skip 'D' _ ("ICMP".toList) _ (by decide)]
    exact dstScan_tail dsl hdsD
  · subst h
    rw [scan_hp_skip 'D' _ ("TCP".toList) _ (by decide)]
    exact dstScan_tail dsl hdsD
  · subst h
    rw [show (("UDP".toList) : List Char) = 'U' :: ('D' :: ('P' :: ([] : List Char))) from by decide]
    simp only [List.cons_append, List.nil_append]
    rw [scan_hp_step 'D' _ 'U' _ (by decide)]
    have hudp : tryHostPort ('D' :: ("st:".toList))
        ('D' :: ('P' :: (' ' :: ('S' :: (("ize:".toList) ++ (' ' :: (dsl ++ (" bytes".toList)))))))) = none := by
      rw [show (("st:".toList) : List Char) = 's' :: ("t:".toList) from by decide]
      simp [tryHostPort, stripPrefixC]
    rw [scan_cons_none _ 'D' _ hudp]
    rw [scan_hp_step 'D' _ 'P' _ (by decide)]
    exact dstScan_tail dsl hdsD
  · subst h
    rw [scan_hp_skip 'D' _ ("OTHER".toList) _ (by decide)]
    exact dstScan_tail dsl hdsD

theorem protoScan_hit (tsl ip1l ip2l Pl dsl : List Char)
    (hts : ∀ c ∈ tsl, tsChar c = true)
    (hip1 : ∀ c ∈ ip1l, ipChar c = true)
    (hip2 : ∀ c ∈ ip2l, ipChar c = true)
    (hPeq : Pl = "ICMP".toList ∨ Pl = "TCP".toList ∨ Pl = "UDP".toList ∨ Pl = "OTHER".toList) :
    scan (tryKeyWord ("Protocol:".toList)) (lineC tsl ip1l ip2l Pl dsl) = some Pl := by
  have htsP : ∀ c ∈ tsl, c ≠ 'P' := fun c hc => tsChar_ne c (hts c hc) 'P' (by decide)
  have hip1P : ∀ c ∈ ip1l, c ≠ 'P' := fun c hc => ipChar_ne c (hip1 c hc) 'P' (by decide)
  have hip2P : ∀ c ∈ ip2l, c ≠ 'P' := fun c hc => ipChar_ne c (hip2 c hc) 'P' (by decide)
  have hPne : Pl.isEmpty = false := by
    rcases hPeq with h | h | h | h <;> subst h <;> decide
  have hPw : ∀ c ∈ Pl, isWordChar c = true := by
    rcases hPeq with h | h | h | h <;> subst h <;> decide
  unfold lineC
  rw [show (("Protocol:".toList) : List Char) = 'P' :: ("rotocol:".toList) from by decide]
  rw [scan_kw_step 'P' _ '[' _ (by decide)]
  rw [scan_kw_skip 'P' _ tsl _ htsP]
  rw [scan_kw_step 'P' _ ']' _ (by decide)]
  rw [scan_kw_skip 'P' _ (" [ALERT] Malicious Traffic ".toList) _ (by decide)]
  rw [scan_kw_step 'P' _ 'D' _ (by decide)]
  rw [scan_kw_skip 'P' _ ("etected! ".toList) _ (by decide)]
  rw [scan_kw_step 'P' _ 'S' _ (by decide)]
  rw [scan_kw_skip 'P' _ ("rc:".toList) _ (by decide)]
  rw [scan_kw_step 'P' _ ' ' _ (by decide)]
  rw [scan_kw_skip 'P' _ ip1l _ hip1P]
  rw [scan_kw_skip 'P' _ ((":N/A -> ".toList)) _ (by decide)]
  rw [scan_kw_step 'P' _ 'D' _ (by decide)]
  rw [scan_kw_skip 'P' _ ("st:".toList) _ (by decide)]
  rw [scan_kw_step 'P' _ ' ' _ (by decide)]
  rw [scan_kw_skip 'P' _ ip2l _ hip2P]
  rw [scan_kw_skip 'P' _ ((":N/A ".toList)) _ (by decide)]
  exact scan_kw_genuine_hit 'P' ("rotocol:".toList) Pl _ hPne hPw

theorem sizeScan_hit (tsl ip1l ip2l Pl dsl : List Char)
    (hts : ∀ c ∈ tsl, tsChar c = true)
    (hip1 : ∀ c ∈ ip1l, ipChar c = true)
    (hip2 : ∀ c ∈ ip2l, ipChar c = true)
    (hPeq : Pl = "ICMP".toList ∨ Pl = "TCP".toList ∨ Pl = "UDP".toList ∨ Pl = "OTHER".toList)
    (hdsne : dsl.isEmpty = false) (hds : ∀ c ∈ dsl, c.isDigit = true) :
    scan (tryKeyDigits ("Size:".toList)) (lineC tsl ip1l ip2l Pl dsl) = some dsl := by
  have htsS : ∀ c ∈ tsl, c ≠ 'S' := fun c hc => tsChar_ne c (hts c hc) 'S' (by decide)
  have hip1S : ∀ c ∈ ip1l, c ≠ 'S' := fun c hc => ipChar_ne c (hip1 c hc) 'S' (by decide)
  have hip2S : ∀ c ∈ ip2l, c ≠ 'S' := fun c hc => ipChar_ne c (hip2 c hc) 'S' (by decide)
  have hPS : ∀ c ∈ Pl, c ≠ 'S' := by
    rcases hPeq with h | h | h | h <;> subst h <;> decide
  unfold lineC
  rw [show ((" bytes".toList) : List Char) = ' ' :: ("bytes".toList) from by decide]
  rw [show (("Size:".toList) : List Char) = 'S' :: ("ize:".toList) from by decide]
  rw [scan_kd_step 'S' _ '[' _ (by decide)]
  rw [scan_kd_skip 'S' _ tsl _ htsS]
  rw [scan_kd_step 'S' _ ']' _ (by decide)]
  rw [scan_kd_skip 'S' _ (" [ALERT] Malicious Traffic ".toList) _ (by decide)]
  rw [scan_kd_step 'S' _ 'D' _ (by decide)]
  rw [scan_kd_skip 'S' _ ("etected! ".toList) _ (by decide)]
  have hsrc : ∀ rest : List Char, tryKeyDigits ('S' :: ("ize:".toList))
      ('S' :: (("rc:".toList) ++ rest)) = none := by
    intro rest
    rw [show (("rc:".toList) : List Char) = 'r' :: ("c:".toList) from by decide]
    rw [show (("ize:".toList) : List Char) = 'i' :: ("ze:".toList) from by decide]
    simp [tryKeyDigits, stripPrefixC]
  rw [scan_cons_none _ 'S' _ (hsrc _)]
  rw [scan_kd_skip 'S' _ ("rc:".toList) _ (by decide)]
  rw [scan_kd_step 'S' _ ' ' _ (by decide)]
  rw [scan_kd_skip 'S' _ ip1l _ hip1S]
  rw [scan_kd_skip 'S' _ ((":N/A -> ".toList)) _ (by decide)]
  rw [scan_kd_step 'S' _ 'D' _ (by decide)]
  rw [scan_kd_skip 'S' _ ("st:".toList) _ (by decide)]
  rw [scan_kd_step 'S' _ ' ' _ (by decide)]
  rw [scan_kd_skip 'S' _ ip2l _ hip2S]
  rw [scan_kd_skip 'S' _ ((":N/A ".toList)) _ (by decide)]
  rw [scan_kd_step 'S' _ 'P' _ (by decide)]
  rw [scan_kd_skip 'S' _ ("rotocol:".toList) _ (by decide)]
  rw [scan_kd_step 'S' _ ' ' _ (by decide)]
  rw [scan_kd_skip 'S' _ Pl _ hPS]
  rw [scan_kd_step 'S' _ ' ' _ (by decide)]
  exact scan_kd_genuine_hit 'S' ("ize:".toList) dsl _ hdsne hds

theorem bracketScan_hit (tsl ip1l ip2l Pl dsl : List Char)
    (htsne : tsl.isEmpty = false) (hts : ∀ c ∈ tsl, tsChar c = true) :
    scan tryBracket (lineC tsl ip1l ip2l Pl dsl) = some tsl := by
  unfold lineC
  exact scan_bracket_hit tsl _ htsne
    (fun c hc => decide_eq_true (tsChar_ne c (hts c hc) ']' (by decide)))

theorem lineC_shape (tsl ip1l ip2l Pl dsl : List Char) :
    lineC tsl ip1l ip2l Pl dsl
      = '[' :: ((lineMid tsl ip1l ip2l Pl dsl) ++ (" bytes".toList)) := by
  unfold lineC lineMid
  simp [List.append_assoc]

theorem stripWs_lineC (tsl ip1l ip2l Pl dsl : List Char) :
    stripWs ((lineC tsl ip1l ip2l Pl dsl) ++ ['\n']) = lineC tsl ip1l ip2l Pl dsl := by
  rw [lineC_shape]
  exact stripWs_bytes '[' _ (by decide)

theorem lineC_has_alert (tsl ip1l ip2l Pl dsl : List Char) :
    containsSub ("[ALERT]".toList) (lineC tsl ip1l ip2l Pl dsl) = true := by
  unfold lineC
  apply containsSub_cons_of
  apply containsSub_append_of
  apply containsSub_cons_of
  rw [show ((" [ALERT] Malicious Traffic ".toList) : List Char)
      = ' ' :: (("[ALERT]".toList) ++ (" Malicious Traffic ".toList)) from by decide]
  rw [List.cons_append]
  apply containsSub_cons_of
  rw [List.append_assoc]
  exact containsSub_mid [] _ _

theorem lineC_no_marker (tsl ip1l ip2l Pl dsl : List Char)
    (hts : ∀ c ∈ tsl, tsChar c = true)
    (hip1 : ∀ c ∈ ip1l, ipChar c = true)
    (hip2 : ∀ c ∈ ip2l, ipChar c = true)
    (hPeq : Pl = "ICMP".toList ∨ Pl = "TCP".toList ∨ Pl = "UDP".toList ∨ Pl = "OTHER".toList)
    (hds : ∀ c ∈ dsl, c.isDigit = true) :
    containsSub ("=== NIDS Alert Log".toList) ((lineC tsl ip1l ip2l Pl dsl) ++ ['\n']) = false := by
  rw [show ("=== NIDS Alert Log".toList : List Char)
      = '=' :: ("== NIDS Alert Log".toList) from by decide]
  apply containsSub_eq_false
  intro c hc heq
  subst heq
  have hnm1 : '=' ∉ tsl := fun hm => absurd (hts '=' hm) (by decide)
  have hnm2 : '=' ∉ ip1l := fun hm => absurd (hip1 '=' hm) (by decide)
  have hnm3 : '=' ∉ ip2l := fun hm => absurd (hip2 '=' hm) (by decide)
  have hnm4 : '=' ∉ dsl := fun hm => absurd (hds '=' hm) (by decide)
  have hnm5 : '=' ∉ Pl := by
    rcases hPeq with h | h | h | h <;> subst h <;> decide
  revert hc
  unfold lineC
  simp only [List.mem_append, List.mem_cons, List.mem_singleton]
  intro hc
  rcases hc with hc | hc
  · rcases hc with hc | hc
    · revert hc; decide
    rcases hc with hc | hc
    · exact hnm1 hc
    rcases hc with hc | hc
    · revert hc; decide
    rcases hc with hc | hc
    · have : ¬('=' ∈ (" [ALERT] Malicious Traffic ".toList)) := by decide
      exact this hc
    rcases hc with hc | hc
    · revert hc; decide
    rcases hc with hc | hc
    · have : ¬('=' ∈ ("etected! ".toList)) := by decide
      exact this hc
    rcases hc with hc | hc
    · revert hc; decide
    rcases hc with hc | hc
    · have : ¬('=' ∈ ("rc:".toList)) := by decide
      exact this hc
    rcases hc with hc | hc
    · revert hc; decide
    rcases hc with hc | hc
    · exact hnm2 hc
    rcases hc with hc | hc
    · have : ¬('=' ∈ (":N/A -> ".toList)) := by decide
      exact this hc
    rcases hc with hc | hc
    · revert hc; decide
    rcases hc with hc | hc
    · have : ¬('=' ∈ ("st:".toList)) := by decide
      exact this hc
    rcases hc with hc | hc
    · revert hc; decide
    rcases hc with hc | hc
    · exact hnm3 hc
    rcases hc with hc | hc
    · have : ¬('=' ∈ (":N/A ".toList)) := by decide
      exact this hc
    rcases hc with hc | hc
    · revert hc; decide
    rcases hc with hc | hc
    · have : ¬('=' ∈ ("rotocol:".toList)) := by decide
      exact this hc
    rcases hc with hc | hc
    · revert hc; decide
    rcases hc with hc | hc
    · exact hnm5 hc
    rcases hc with hc | hc
    · revert hc; decide
    rcases hc with hc | hc
    · revert hc; decide
    rcases hc with hc | hc
    · have : ¬('=' ∈ ("ize:".toList)) := by decide
      exact this hc
    rcases hc with hc | hc
    · revert hc; decide
    rcases hc with hc | hc
    · exact hnm4 hc
    · have : ¬('=' ∈ (" bytes".toList)) := by decide
      exact this hc
  · revert hc; decide

theorem parseAlertLine_lineC (tsl ip1l ip2l Pl dsl : List Char)
    (htsne : tsl.isEmpty = false) (hts : ∀ c ∈ tsl, tsChar c = true)
    (hip1ne : ip1l.isEmpty = false) (hip1 : ∀ c ∈ ip1l, ipChar c = true)
    (hip2ne : ip2l.isEmpty = false) (hip2 : ∀ c ∈ ip2l, ipChar c = true)
    (hPeq : Pl = "ICMP".toList ∨ Pl = "TCP".toList ∨ Pl = "UDP".toList ∨ Pl = "OTHER".toList)
    (hdsne : dsl.isEmpty = false) (hds : ∀ c ∈ dsl, c.isDigit = true) :
    Api.parseAlertLine (lineC tsl ip1l ip2l Pl dsl)
      = { timestamp := String.mk tsl, src_ip := "N/A", src_port := "N/A", dst_ip := "N/A",
          dst_port := "N/A", protocol := String.mk Pl, size := digitsToNat dsl } := by
  have hb := bracketScan_hit tsl ip1l ip2l Pl dsl htsne hts
  have hs := srcScan_none tsl ip1l ip2l Pl dsl hts hip1ne hip1 hip2 hPeq hds
  have hd := dstScan_none tsl ip1l ip2l Pl dsl hts hip1 hip2ne hip2 hPeq hds
  have hp := protoScan_hit tsl ip1l ip2l Pl dsl hts hip1 hip2 hPeq
  have hz := sizeScan_hit tsl ip1l ip2l Pl dsl hts hip1 hip2 hPeq hdsne hds
  simp only [Api.parseAlertLine, bracketGroup, hb, hs, hd, hp, hz, Option.getD, Option.map]
  rfl

theorem lineC_not_empty (tsl ip1l ip2l Pl dsl : List Char) :
    (lineC tsl ip1l ip2l Pl dsl).isEmpty = false := by
  unfold lineC
  rfl

/-- C10: an alert line whose two port fields are the literal `N/A` (as the
Alert Logger writes for frames with no TCP or UDP layer, e.g. ICMP) is NOT
skipped by parse_alerts: it yields one record, but with src_ip, src_port,
dst_ip and dst_port all equal to `N/A`, because the Src/Dst patterns require
a numeric port after the colon and therefore fail to capture the real
addresses present in the line.  First conjunct: every such line, for any
timestamp (digits/dash/colon/space), dotted-decimal addresses, any of the
four protocol names the pipeline can emit, and any digit string in the Size
field (the logger's `toString size` is such a string).  Second conjunct: the
concrete line the live_nids logger writes for an ICMP frame of 64 bytes. -/
theorem C10_na_ports_parsed (ts ip1 ip2 P ds : String)
    (h1 : ts.toList.isEmpty = false) (h2 : ∀ c ∈ ts.toList, tsChar c = true)
    (h3 : ip1.toList.isEmpty = false) (h4 : ∀ c ∈ ip1.toList, ipChar c = true)
    (h5 : ip2.toList.isEmpty = false) (h6 : ∀ c ∈ ip2.toList, ipChar c = true)
    (h7 : P = "ICMP" ∨ P = "TCP" ∨ P = "UDP" ∨ P = "OTHER")
    (h8 : ds.toList.isEmpty = false) (h9 : ∀ c ∈ ds.toList, c.isDigit = true) :
    Api.parse_alerts
        ["[" ++ ts ++ "] [ALERT] Malicious Traffic Detected! Src: " ++ ip1 ++ ":N/A -> Dst: "
          ++ ip2 ++ ":N/A Protocol: " ++ P ++ " Size: " ++ ds ++ " bytes\n"] 100
      = [{ timestamp := ts, src_ip := "N/A", src_port := "N/A", dst_ip := "N/A",
           dst_port := "N/A", protocol := P, size := digitsToNat ds.toList }] ∧
    Api.parse_alerts [Live.log_alert ("2024-01-01 00:00:00") pktIcmp "icmp" 64 ""] 100
      = [{ timestamp := "2024-01-01 00:00:00", src_ip := "N/A", src_port := "N/A",
           dst_ip := "N/A", dst_port := "N/A", protocol := "ICMP", size := 64 }] := by
  constructor
  · have hPeq : P.toList = "ICMP".toList ∨ P.toList = "TCP".toList ∨
        P.toList = "UDP".toList ∨ P.toList = "OTHER".toList := by
      rcases h7 with h | h | h | h <;> subst h <;> simp
    have hline : ("[" ++ ts ++ "] [ALERT] Malicious Traffic Detected! Src: " ++ ip1 ++
          ":N/A -> Dst: " ++ ip2 ++ ":N/A Protocol: " ++ P ++ " Size: " ++ ds ++
          " bytes\n").toList
        = (lineC ts.toList ip1.toList ip2.toList P.toList ds.toList) ++ ['\n'] := by
      unfold lineC
      simp only [String.toList, String.data_append]
      simp [List.append_assoc]
    have hmark := lineC_no_marker ts.toList ip1.toList ip2.toList P.toList ds.toList
      h2 h4 h6 hPeq h9
    have hstrip := stripWs_lineC ts.toList ip1.toList ip2.toList P.toList ds.toList
    have hal := lineC_has_alert ts.toList ip1.toList ip2.toList P.toList ds.toList
    have hrec := parseAlertLine_lineC ts.toList ip1.toList ip2.toList P.toList ds.toList
      h1 h2 h3 h4 h5 h6 hPeq h8 h9
    have hemp := lineC_not_empty ts.toList ip1.toList ip2.toList P.toList ds.toList
    simp only [Api.parse_alerts, hline, hmark, Bool.false_eq_true, if_false, ite_false,
      reduceIte, List.drop, List.filterMap_cons, List.filterMap_nil, hstrip, hemp,
      Bool.not_false, hal, Bool.true_and, Bool.and_self, if_true, ite_true, hrec,
      List.reverse_cons, List.reverse_nil, List.nil_append, List.take]
    rfl
  · decide

theorem C10_na_ports_parsed_witness :
    ("2024-01-01 00:00:00".toList.isEmpty = false) ∧
    (∀ c ∈ "2024-01-01 00:00:00".toList, tsChar c = true) ∧
    ("10.0.0.1".toList.isEmpty = false) ∧
    (∀ c ∈ "10.0.0.1".toList, ipChar c = true) ∧
    ("10.0.0.2".toList.isEmpty = false) ∧
    (∀ c ∈ "10.0.0.2".toList, ipChar c = true) ∧
    (("ICMP" : String) = "ICMP" ∨ ("ICMP" : String) = "TCP" ∨
      ("ICMP" : String) = "UDP" ∨ ("ICMP" : String) = "OTHER") ∧
    ("64".toList.isEmpty = false) ∧
    (∀ c ∈ "64".toList, c.isDigit = true) ∧
    (Api.parse_alerts
        ["[" ++ "2024-01-01 00:00:00" ++ "] [ALERT] Malicious Traffic Detected! Src: " ++
          "10.0.0.1" ++ ":N/A -> Dst: " ++ "10.0.0.2" ++ ":N/A Protocol: " ++ "ICMP" ++
          " Size: " ++ "64" ++ " bytes\n"] 100
      = [{ timestamp := "2024-01-01 00:00:00", src_ip := "N/A", src_port := "N/A",
           dst_ip := "N/A", dst_port := "N/A", protocol := "ICMP",
           size := digitsToNat ("64".toList) }] ∧
    Api.parse_alerts [Live.log_alert ("2024-01-01 00:00:00") pktIcmp "icmp" 64 ""] 100
      = [{ timestamp := "2024-01-01 00:00:00", src_ip := "N/A", src_port := "N/A",
           dst_ip := "N/A", dst_port := "N/A", protocol := "ICMP", size := 64 }]) :=
  ⟨by decide, by decide, by decide, by decide, by decide, by decide, by decide, by decide,
    by decide,
    C10_na_ports_parsed "2024-01-01 00:00:00" "10.0.0.1" "10.0.0.2" "ICMP" "64"
      (by decide) (by decide) (by decide) (by decide) (by decide) (by decide)
      (by decide) (by decide) (by decide)⟩
